import Mathlib

/-!
# Payroll preview calculator (`app/static/js/payroll_modal.js`)

A shallow embedding of the client-side payroll preview: the session state
`currentEmployeeData`, the part of the page the calculator reads (the numeric
inputs and the rows of `#payrollDeductionsTableBody`), and the functions
`populatePayrollModal`, `buildDeductionsTable`, `calculateMedicalAidDeduction`,
`calculateRecurringDeductions` and `calculatePayroll`, with the verification
counts of the same file.  Two smaller parts follow: the identity-number check
and the derived hourly rate of `employee_modal.js`, and the month navigation
and table sort of `portfolio_dashboard.js`.

## Number model

JavaScript numbers are modelled by `JSNum`: either `NaN` or a finite value, and
finite values are exact rationals.  Decimal literals of the source (`1.5`,
`0.18`, `17712.00`, `0.01`) denote their exact decimal value.  The rounding of
IEEE-754 doubles, overflow and the infinities are not modelled.

## Text model

A DOM string that the code only hands to `parseFloat` or tests with `||` is
modelled by `NumText`: the empty string, or a non-empty string together with
the number `parseFloat` reads from it.
-/

namespace Payroll

/-! ## JavaScript numbers -/

/-- A JavaScript number: `NaN` or a finite value (an exact rational). -/
inductive JSNum where
  | nan : JSNum
  | num (q : ℚ) : JSNum
deriving DecidableEq

namespace JSNum

/-- The operator `a + b` on numbers: `NaN` is absorbing. -/
def add : JSNum → JSNum → JSNum
  | num a, num b => num (a + b)
  | _, _ => nan

/-- The operator `a - b` on numbers. -/
def sub : JSNum → JSNum → JSNum
  | num a, num b => num (a - b)
  | _, _ => nan

/-- The operator `a * b` on numbers. -/
def mul : JSNum → JSNum → JSNum
  | num a, num b => num (a * b)
  | _, _ => nan

/-- The operator `a / b` on numbers.  JavaScript yields `±Infinity` (or `NaN`
for `0 / 0`) when the divisor is zero; the infinities are outside this model
and a zero divisor yields `nan` here. -/
def div : JSNum → JSNum → JSNum
  | num a, num b => if b = 0 then nan else num (a / b)
  | _, _ => nan

instance : Add JSNum := ⟨add⟩
instance : Sub JSNum := ⟨sub⟩
instance : Mul JSNum := ⟨mul⟩
instance : Div JSNum := ⟨div⟩

/-- The function `Math.max(a, b)`: `NaN` if either argument is `NaN`. -/
def max : JSNum → JSNum → JSNum
  | num a, num b => num (Max.max a b)
  | _, _ => nan

/-- The function `Math.min(a, b)`: `NaN` if either argument is `NaN`. -/
def min : JSNum → JSNum → JSNum
  | num a, num b => num (Min.min a b)
  | _, _ => nan

/-- The comparison `a < b`: false as soon as one side is `NaN`. -/
def lt : JSNum → JSNum → Bool
  | num a, num b => decide (a < b)
  | _, _ => false

/-- Truthiness of a number: `0` and `NaN` are falsy. -/
def truthy : JSNum → Bool
  | num q => decide (q ≠ 0)
  | nan => false

/-- The expression `x || d` where `x` is a number. -/
def orElse (x d : JSNum) : JSNum :=
  if x.truthy then x else d

end JSNum

open JSNum (nan num)

/-- Truthiness of a string: only the empty string is falsy. -/
def strTruthy (s : String) : Bool :=
  decide (s ≠ "")

/-- The method `s.toLowerCase()`.  Only the ASCII letters are mapped; the
results are only ever compared with the ASCII literals `'percentage'`,
`'calculated'`, `'fixed'` and `'medical aid'`, none of which contains a letter
that a non-ASCII character lowercases to. -/
def toLowerCase (s : String) : String :=
  String.mk (s.data.map Char.toLower)

/-! ## JSON fields -/

/-- The call `parseFloat(x)` for a JSON numeric field: an absent (`undefined`
or `null`) field gives `NaN`. -/
def parseFloatField : Option ℚ → JSNum
  | some q => num q
  | none => nan

/-- The expression `x || d` for a JSON numeric field `x` and a numeric literal
`d`: an absent field and `0` are both replaced by `d`. -/
def fieldOr (x : Option ℚ) (d : ℚ) : ℚ :=
  match x with
  | some q => if q = 0 then d else q
  | none => d

/-- Truthiness of a JSON boolean field: an absent field is falsy. -/
def flag : Option Bool → Bool
  | some b => b
  | none => false

/-- Conversion of a stored numeric property to a number when it is used as an
arithmetic operand: `undefined` becomes `NaN`. -/
def toNumber : Option JSNum → JSNum
  | some x => x
  | none => nan

/-! ## DOM text -/

/-- A DOM string holding a number (an input value or a `data-*` attribute). -/
inductive NumText where
  | empty : NumText
  | text (parsed : JSNum) : NumText
deriving DecidableEq

/-- The call `parseFloat(s)` on a DOM string: the empty string gives `NaN`. -/
def parseFloat : NumText → JSNum
  | NumText.empty => nan
  | NumText.text p => p

/-- The call `parseFloat(el.value) || 0` used for every numeric input. -/
def readInput (t : NumText) : JSNum :=
  (parseFloat t).orElse (num 0)

/-! ## Session state and page -/

/-- A JSON boolean field whose code distinguishes `undefined` (the property is
missing) from `null`. -/
inductive JSBool where
  | undefined : JSBool
  | null : JSBool
  | bool (b : Bool) : JSBool
deriving DecidableEq

/-- One element of `recurring_deductions` in the employee record served by
`/employees/<id>/api`.  An absent (`undefined` or `null`) field is `none`. -/
structure Deduction where
  beneficiary_name : String
  deduction_type : Option String
  beneficiary_type : Option String
  amount_type : Option String
  value : Option ℚ
  is_active : JSBool
  enabled : JSBool
deriving DecidableEq

/-- The object `currentEmployeeData`: the employee record served by
`/employees/<id>/api` together with the properties `hourly_rate` and
`work_hours` that `populatePayrollModal` stores on it.  An absent field is
`none`; numeric fields arrive as JSON numbers. -/
structure EmployeeData where
  salary_type : Option String
  salary : Option ℚ
  monthly_salary : Option ℚ
  ordinary_hours_per_day : Option ℚ
  work_days_per_month : Option ℚ
  piece_rate : Option ℚ
  overtime_eligible : Option Bool
  uif_contributing : Option Bool
  sdl_contributing : Option Bool
  paye_exempt : Option Bool
  medical_aid_tax_credit : Option ℚ
  fringe_benefit_amount : Option ℚ
  medical_aid_member : Option Bool
  medical_aid_dependants : Option ℤ
  medical_aid_principal_member : Option Bool
  allowances : Option ℚ
  bonus_type : Option String
  recurring_deductions : Option (List Deduction)
  hourly_rate : Option JSNum
  work_hours : Option JSNum
deriving DecidableEq

/-- The initial value `{}` of `currentEmployeeData`. -/
def EmployeeData.initial : EmployeeData :=
  { salary_type := none, salary := none, monthly_salary := none,
    ordinary_hours_per_day := none, work_days_per_month := none,
    piece_rate := none, overtime_eligible := none, uif_contributing := none,
    sdl_contributing := none, paye_exempt := none,
    medical_aid_tax_credit := none, fringe_benefit_amount := none,
    medical_aid_member := none, medical_aid_dependants := none,
    medical_aid_principal_member := none, allowances := none,
    bonus_type := none, recurring_deductions := none,
    hourly_rate := none, work_hours := none }

/-- A `tr` of `#payrollDeductionsTableBody`, as `calculateRecurringDeductions`
reads it: the three `data-*` attributes (absent on rows added with the
add-deduction button) and the values of the `.amount-type-select` and
`.deduction-value` controls (absent on rows built from the employee record). -/
structure TableRow where
  amountType : Option String
  value : Option NumText
  beneficiaryType : Option String
  typeSelect : Option String
  valueInput : Option NumText
deriving DecidableEq

/-- The part of the page the calculator reads: the values of the numeric
inputs and the rows of the deductions table. -/
structure Dom where
  ordinary_hours : NumText
  overtime_hours : NumText
  sunday_hours : NumText
  public_holiday_hours : NumText
  allowances : NumText
  bonus_amount : NumText
  pieces_produced : NumText
  rows : List TableRow
deriving DecidableEq

/-- The values computed by one run of `calculatePayroll`, before they are
formatted into the preview elements. -/
structure Breakdown where
  hourlyRate : JSNum
  ordinaryPay : JSNum
  overtimePay : JSNum
  sundayPay : JSNum
  publicHolidayPay : JSNum
  grossPay : JSNum
  medicalAidTaxCredit : JSNum
  fringeBenefit : JSNum
  adjustedGrossPay : JSNum
  paye : JSNum
  uif : JSNum
  sdl : JSNum
  rowAmounts : List JSNum
  recurringTotal : JSNum
  totalDeductions : JSNum
  netPay : JSNum
deriving DecidableEq

/-! ## The calculator -/

/-- The function `calculateMedicalAidDeduction` (lines 258-267). -/
def calculateMedicalAidDeduction (cur : EmployeeData) : ℤ :=
  if !flag cur.medical_aid_member then 0
  else
    let dependants : ℤ := cur.medical_aid_dependants.getD 0
    if dependants = 0 then 364
    else if dependants = 1 then 728
    else 728 + (dependants - 1) * 246

/-- The call `parseFloat(row.dataset.value)`: an attribute that was never set
reads as `undefined`, which parses to `NaN`. -/
def parseFloatAttr : Option NumText → JSNum
  | some t => parseFloat t
  | none => nan

/-- The call `parseFloat(row.dataset.value || 0)`: an attribute that is absent
or empty is replaced by `0`. -/
def parseFloatAttrOrZero : Option NumText → JSNum
  | some (NumText.text p) => p
  | some NumText.empty => num 0
  | none => num 0

/-- Lines 272-281: the `type` and `value` read from a row. -/
def rowTypeValue (row : TableRow) : String × JSNum :=
  let fromControls : String × JSNum :=
    (match row.typeSelect with
     | some v => v
     | none => "Fixed",
     match row.valueInput with
     | some t => parseFloat t
     | none => num 0)
  match row.amountType with
  | some t => if strTruthy t then (t, parseFloatAttr row.value) else fromControls
  | none => fromControls

/-- Lines 282-290: the amount `calc` of one row for the base `base`. -/
def rowAmount (base : JSNum) (row : TableRow) : JSNum :=
  let type := (rowTypeValue row).1
  let value := (rowTypeValue row).2
  if toLowerCase type = "percentage" then
    base * (value / num 100)
  else if toLowerCase type = "calculated"
      ∧ toLowerCase (row.beneficiaryType.getD "") = "medical aid" then
    parseFloatAttrOrZero row.value
  else
    value

/-- The function `calculateRecurringDeductions(base)` (lines 269-297) over the
rows of the table: the amount written to each row and the returned total,
accumulated from `0` in row order. -/
def calculateRecurringDeductions (base : JSNum) (rows : List TableRow) :
    List JSNum × JSNum :=
  (rows.map (rowAmount base),
   rows.foldl (fun total row => total + rowAmount base row) (num 0))

/-- The expression `a || b` for two JSON numeric fields. -/
def orField (a b : Option ℚ) : Option ℚ :=
  match a with
  | some q => if q = 0 then b else some q
  | none => b

/-- The function `calculatePayroll` (lines 299-402): the values it computes
from `currentEmployeeData` and the page. -/
def calculatePayroll (cur : EmployeeData) (dom : Dom) : Breakdown :=
  let ordinaryHours := readInput dom.ordinary_hours
  let overtimeHours := readInput dom.overtime_hours
  let sundayHours := readInput dom.sunday_hours
  let publicHolidayHours := readInput dom.public_holiday_hours
  let allowances := readInput dom.allowances
  let bonusAmount := readInput dom.bonus_amount
  let hourlyRate : JSNum :=
    if cur.salary_type = some "monthly" then
      let workHours := (toNumber cur.work_hours).orElse
        (num (fieldOr cur.ordinary_hours_per_day 8) * num (fieldOr cur.work_days_per_month 22))
      parseFloatField cur.salary / workHours
    else if cur.salary_type = some "daily" then
      parseFloatField cur.salary / num (fieldOr cur.ordinary_hours_per_day 8)
    else
      toNumber cur.hourly_rate
  let ordinaryPay : JSNum :=
    if cur.salary_type = some "monthly" then
      parseFloatField (orField cur.monthly_salary cur.salary)
    else if cur.salary_type = some "daily" then
      ordinaryHours * parseFloatField cur.salary
    else if cur.salary_type = some "piece" then
      let piecesProduced := readInput dom.pieces_produced
      let pieceRate := num (fieldOr cur.piece_rate 0)
      piecesProduced * pieceRate
    else
      ordinaryHours * hourlyRate
  let premium : Bool :=
    decide (cur.salary_type ≠ some "monthly" ∧ cur.salary_type ≠ some "piece")
  let overtimePay := if premium then overtimeHours * hourlyRate * num 1.5 else num 0
  let sundayPay := if premium then sundayHours * hourlyRate * num 2.0 else num 0
  let publicHolidayPay := if premium then publicHolidayHours * hourlyRate * num 2.0 else num 0
  let grossPay := ordinaryPay + overtimePay + sundayPay + publicHolidayPay + allowances + bonusAmount
  let medicalAidTaxCredit := num (fieldOr cur.medical_aid_tax_credit 0)
  let fringeBenefit := num (fieldOr cur.fringe_benefit_amount 0)
  let adjustedGrossPay := grossPay + fringeBenefit
  let paye :=
    if !flag cur.paye_exempt then
      JSNum.max (adjustedGrossPay * num 0.18 - medicalAidTaxCredit) (num 0)
    else num 0
  let uif :=
    if flag cur.uif_contributing then
      let uifEligibleSalary := JSNum.min adjustedGrossPay (num 17712.00)
      uifEligibleSalary * num 0.01
    else num 0
  let sdl := if flag cur.sdl_contributing then adjustedGrossPay * num 0.01 else num 0
  let recurring := calculateRecurringDeductions grossPay dom.rows
  let recurringTotal := recurring.2
  let totalDeductions := paye + uif + sdl + recurringTotal
  let netPay := grossPay - totalDeductions
  { hourlyRate := hourlyRate, ordinaryPay := ordinaryPay, overtimePay := overtimePay,
    sundayPay := sundayPay, publicHolidayPay := publicHolidayPay, grossPay := grossPay,
    medicalAidTaxCredit := medicalAidTaxCredit, fringeBenefit := fringeBenefit,
    adjustedGrossPay := adjustedGrossPay, paye := paye, uif := uif, sdl := sdl,
    rowAmounts := recurring.1, recurringTotal := recurringTotal,
    totalDeductions := totalDeductions, netPay := netPay }

/-! ## Loading an employee -/

/-- The browser state shared by the handlers of the payroll page:
`currentEmployeeData`, the inputs and table rows, and the values last written
to the preview by `calculatePayroll` (`none` before its first run). -/
structure Page where
  currentEmployeeData : EmployeeData
  dom : Dom
  preview : Option Breakdown
deriving DecidableEq

/-- The values `workHours`, `hourlyRate` and `baseSalary` derived by
`populatePayrollModal`. -/
structure Rates where
  workHours : JSNum
  hourlyRate : JSNum
  baseSalary : JSNum
deriving DecidableEq

/-- Lines 19-31 of `populatePayrollModal`, for a record whose `salary_type`
is the string `salaryType`. -/
def deriveRates (data : EmployeeData) (salaryType : String) : Rates :=
  let workHours := num (fieldOr data.ordinary_hours_per_day 8) * num (fieldOr data.work_days_per_month 22)
  if salaryType = "hourly" then
    let hourlyRate := parseFloatField data.salary
    { workHours := workHours, hourlyRate := hourlyRate, baseSalary := hourlyRate }
  else if salaryType = "daily" then
    { workHours := workHours,
      hourlyRate := parseFloatField data.salary / num (fieldOr data.ordinary_hours_per_day 8),
      baseSalary := parseFloatField data.salary }
  else
    { workHours := workHours,
      hourlyRate := parseFloatField data.salary / workHours,
      baseSalary := parseFloatField data.monthly_salary }

/-- The expression `d.is_active !== undefined ? d.is_active : d.enabled`. -/
def activeValue (d : Deduction) : JSBool :=
  if d.is_active ≠ JSBool.undefined then d.is_active else d.enabled

/-- The expression `a || b || ''` for two string fields. -/
def strOr (a b : Option String) : String :=
  match a with
  | some x => if strTruthy x then x else
      (match b with
       | some y => y
       | none => "")
  | none =>
      match b with
      | some y => y
      | none => ""

/-- The string written to `row.dataset.value` for the field `d.value`: the
decimal text of a number, or the text `undefined`/`null`, which `parseFloat`
reads as `NaN`. -/
def valueAttr : Option ℚ → NumText
  | some q => NumText.text (num q)
  | none => NumText.text nan

/-- The `forEach` loop of `buildDeductionsTable` (lines 200-220): the rows
appended to the table, and `false` when the loop was left by the `TypeError`
of `d.amount_type.toLowerCase()` on an absent `amount_type`. -/
def buildRows : List Deduction → List TableRow × Bool
  | [] => ([], true)
  | d :: ds =>
    if activeValue d = JSBool.bool false then buildRows ds
    else
      match d.amount_type with
      | none => ([], false)
      | some t =>
        let typeLabel := strOr d.beneficiary_type d.deduction_type
        let row : TableRow :=
          { amountType := some t, value := some (valueAttr d.value),
            beneficiaryType := some typeLabel, typeSelect := none, valueInput := none }
        (row :: (buildRows ds).1, (buildRows ds).2)

/-- The function `buildDeductionsTable` (lines 196-221): the new rows of the
table body, and whether the function returned (`true`) or threw (`false`). -/
def buildDeductionsTable (cur : EmployeeData) : List TableRow × Bool :=
  match cur.recurring_deductions with
  | none => ([], true)
  | some ds => buildRows ds

/-- Whether the deduction is labelled medical aid:
`(d.deduction_type || '').toLowerCase() === 'medical aid'`. -/
def isMedicalAid (d : Deduction) : Bool :=
  decide (toLowerCase (d.deduction_type.getD "") = "medical aid")

/-- Whether the loop filling `config-recurring-list` (lines 137-153) throws:
it calls `d.amount_type.toLowerCase()` on every deduction it does not skip. -/
def configListThrows (ds : List Deduction) : Bool :=
  ds.any (fun d =>
    !decide (activeValue d = JSBool.bool false) && !isMedicalAid d && d.amount_type.isNone)

/-- The function `populatePayrollModal` (lines 5-194).  `response` is the
decoded body of `/employees/<id>/api`, `none` when `fetch` or
`response.json()` rejects.  The result is the state of the page when the
function settles, and `true` when the modal was shown, `false` when the
`catch` block ran.  Writes to elements that the calculator never reads are
left out, and the elements of the page template are taken to exist. -/
def populatePayrollModal (response : Option EmployeeData) (page : Page) : Page × Bool :=
  match response with
  | none => (page, false)
  | some data =>
    -- lines 10-11
    let cur₁ : EmployeeData :=
      { data with fringe_benefit_amount := some (fieldOr data.fringe_benefit_amount 0) }
    match data.salary_type with
    | none =>
      -- line 18: `data.salary_type.charAt` throws
      ({ page with currentEmployeeData := cur₁ }, false)
    | some salaryType =>
      let rates := deriveRates data salaryType
      -- lines 32-33
      let cur₂ : EmployeeData :=
        { cur₁ with hourly_rate := some rates.hourlyRate, work_hours := some rates.workHours }
      -- line 52
      let ordinaryText : NumText :=
        if salaryType = "daily" then NumText.empty else NumText.text rates.workHours
      -- line 69
      let cur₃ : EmployeeData :=
        if salaryType = "piece" then
          { cur₂ with piece_rate := some (fieldOr data.piece_rate 0) }
        else cur₂
      -- line 84
      let allowancesText : NumText := NumText.text (num (fieldOr data.allowances 0))
      -- lines 87-92
      let bonusShown : Bool :=
        match data.bonus_type with
        | some b => strTruthy b && decide (b ≠ "None")
        | none => false
      let dom₁ : Dom :=
        { page.dom with
          ordinary_hours := ordinaryText,
          allowances := allowancesText,
          bonus_amount := if bonusShown then page.dom.bonus_amount else NumText.text (num 0) }
      if configListThrows (data.recurring_deductions.getD []) then
        ({ page with currentEmployeeData := cur₃, dom := dom₁ }, false)
      else
        -- line 158
        let built := buildDeductionsTable cur₃
        let dom₂ : Dom := { dom₁ with rows := built.1 }
        if !built.2 then
          ({ page with currentEmployeeData := cur₃, dom := dom₂ }, false)
        else
          -- line 159
          ({ currentEmployeeData := cur₃, dom := dom₂,
             preview := some (calculatePayroll cur₃ dom₂) }, true)

/-! ## Handlers on the page -/

/-- The expression of line 310 of `calculatePayroll`, the `workHours` used for
a monthly employee:
`work_hours || ((ordinary_hours_per_day || 8) * (work_days_per_month || 22))`. -/
def calculatePayroll.workHours (cur : EmployeeData) : JSNum :=
  (toNumber cur.work_hours).orElse
    (num (fieldOr cur.ordinary_hours_per_day 8) * num (fieldOr cur.work_days_per_month 22))

/-- One run of `calculatePayroll()` as a handler on the page.  It reads
`currentEmployeeData`, the numeric inputs and the rows; it writes the preview
elements and the `.deduction-amount` cell of every row, whose values are kept
in `preview`, and nothing that it reads. -/
def Page.calculatePayroll (page : Page) : Page :=
  { page with preview := some (Payroll.calculatePayroll page.currentEmployeeData page.dom) }

/-- The row appended by `addPayrollDeductionRow` (lines 223-256): no `data-*`
attribute, the select on `Fixed` and the value input on `0`. -/
def newDeductionRow : TableRow :=
  { amountType := none, value := none, beneficiaryType := none,
    typeSelect := some "Fixed", valueInput := some (NumText.text (num 0)) }

/-- The function `addPayrollDeductionRow` (lines 223-256): the new row is
appended after the rows already in the table body. -/
def addPayrollDeductionRow (dom : Dom) : Dom :=
  { dom with rows := dom.rows ++ [newDeductionRow] }

/-- The number `0`, the initial value of `total` in
`calculateRecurringDeductions`. -/
instance : Zero JSNum := ⟨num 0⟩

/-! ## Active deductions and the medical-aid lookup -/

/-- Whether `buildDeductionsTable` keeps the deduction: the negation of the
test `active === false` of line 202. -/
def kept (d : Deduction) : Bool :=
  !decide (activeValue d = JSBool.bool false)

/-- The row created at lines 204-207 for a deduction, when its `amount_type`
is present. -/
def deductionRowOf (d : Deduction) : Option TableRow :=
  d.amount_type.map fun t =>
    { amountType := some t, value := some (valueAttr d.value),
      beneficiaryType := some (strOr d.beneficiary_type d.deduction_type),
      typeSelect := none, valueInput := none }

/-- The activity test of the medical-aid lookup at line 125:
`d.is_active !== false && d.enabled !== false`. -/
def lookupActive (d : Deduction) : Bool :=
  decide (d.is_active ≠ JSBool.bool false) && decide (d.enabled ≠ JSBool.bool false)

/-- The lookup `medDed` of lines 123-126 of `populatePayrollModal`. -/
def findMedicalAid (data : EmployeeData) : Option Deduction :=
  match data.recurring_deductions with
  | none => none
  | some ds => ds.find? fun d => isMedicalAid d && lookupActive d



/-! ## The rate panel -/

/-- The attributes `data-ot`, `data-sun` and `data-hol` of
`#payroll-config-card`, `none` when the attribute is not set. -/
structure ConfigCard where
  ot : Option NumText
  sun : Option NumText
  hol : Option NumText
deriving DecidableEq

/-- The call `parseFloat(card.dataset.x || d)` of lines 99-101: an attribute
that is absent or empty is replaced by the default `d`. -/
def multiplier (attr : Option NumText) (d : ℚ) : JSNum :=
  match attr with
  | some (NumText.text p) => p
  | some NumText.empty => num d
  | none => num d

/-- The rates written to the configuration panel by lines 103-106 of
`populatePayrollModal`, before they are formatted with `toFixed(2)`. -/
structure RatePanel where
  hourly : JSNum
  overtime : JSNum
  sunday : JSNum
  holiday : JSNum
deriving DecidableEq

/-- Lines 98-106 of `populatePayrollModal` for the derived `hourlyRate`. -/
def ratePanel (card : ConfigCard) (hourlyRate : JSNum) : RatePanel :=
  let otMult := multiplier card.ot 1.5
  let sunMult := multiplier card.sun 2
  let holMult := multiplier card.hol 2.5
  { hourly := hourlyRate, overtime := hourlyRate * otMult,
    sunday := hourlyRate * sunMult, holiday := hourlyRate * holMult }

/-! ## Verification counts (`payroll_modal.js`, lines 428-474) -/

/-- The part of the payroll page that `updateEmployeeStatus` and
`updateVerificationCounts` read and write: the `data-verified` attribute of
every `.verification-status` element in document order (one per employee
row), the two displayed counts, and the `disabled` property of
`#process-payroll-btn` (`none` when the page has no such button). -/
structure VerificationPage where
  statuses : List (Option String)
  verifiedCount : ℤ
  pendingCount : ℤ
  processDisabled : Option Bool
deriving DecidableEq

/-- The function `updateEmployeeStatus(employeeId, verified)` for the
employee whose row is the `i`-th. -/
def updateEmployeeStatus (i : ℕ) (verified : Bool) (p : VerificationPage) : VerificationPage :=
  { p with statuses := p.statuses.set i (some (if verified then "true" else "false")) }

/-- The function `updateVerificationCounts` (lines 443-474). -/
def updateVerificationCounts (p : VerificationPage) : VerificationPage :=
  let verifiedCount : ℤ := (p.statuses.filter fun s => decide (s = some "true")).length
  let pendingCount : ℤ := (p.statuses.length : ℤ) - verifiedCount
  let allVerified : Bool := decide (pendingCount = 0)
  { p with
    verifiedCount := verifiedCount,
    pendingCount := pendingCount,
    processDisabled := p.processDisabled.map fun _ => !allVerified }

/-! ## The edit-employee modal (`employee_modal.js`) -/

namespace EmployeeModal

/-- Whether the character belongs to the class `\s` of a regular expression:
the white space and line terminator code points. -/
def isWhiteSpace (c : Char) : Bool :=
  let n := c.toNat
  (9 ≤ n && n ≤ 13) || n = 32 || n = 160 || n = 5760 || (8192 ≤ n && n ≤ 8202)
    || n = 8232 || n = 8233 || n = 8239 || n = 8287 || n = 12288 || n = 65279

/-- The call `parseInt(s)` on a string of decimal digits. -/
def parseInt (digits : List Char) : ℕ :=
  digits.foldl (fun n c => 10 * n + (c.toNat - 48)) 0

/-- The call `s.padStart(2, '0')`. -/
def padStart2 (s : String) : String :=
  if s.length = 0 then "00" else if s.length = 1 then "0" ++ s else s

/-- The elements that `validateAndExtractFromEditId` writes: the values of
`#edit_date_of_birth` and `#edit_gender`, the text of
`#edit_id_validation_message`, and whether that message and
`#edit_id_success_message` are displayed. -/
structure EditForm where
  dateOfBirth : String
  gender : String
  validationText : String
  validationShown : Bool
  successShown : Bool
deriving DecidableEq

/-- The expression `idInput.value.replace(/\s/g, '')`. -/
def stripWhiteSpace (idValue : String) : List Char :=
  idValue.data.filter fun c => !isWhiteSpace c

/-- The test `idNumber.length === 13 && /^\d{13}$/.test(idNumber)`. -/
def isThirteenDigits (idNumber : List Char) : Bool :=
  decide (idNumber.length = 13) && idNumber.all Char.isDigit

/-- The function `validateAndExtractFromEditId` (lines 822-881, the definition
in force: it is declared after the one at lines 16-55) for the value of
`#edit_id_number`; the elements it looks up are taken to exist. -/
def validateAndExtractFromEditId (idValue : String) (form : EditForm) : EditForm :=
  let idNumber := stripWhiteSpace idValue
  if isThirteenDigits idNumber then
    let year := parseInt (idNumber.take 2)
    let month := parseInt ((idNumber.drop 2).take 2)
    let day := parseInt ((idNumber.drop 4).take 2)
    let fullYear := if year ≤ 24 then 2000 + year else 1900 + year
    if 1 ≤ month ∧ month ≤ 12 ∧ 1 ≤ day ∧ day ≤ 31 then
      let dobString :=
        toString fullYear ++ "-" ++ padStart2 (toString month) ++ "-" ++ padStart2 (toString day)
      let genderDigit := parseInt ((idNumber.drop 6).take 4)
      let gender :=
        if 0 ≤ genderDigit ∧ genderDigit ≤ 4999 then "Female"
        else if 5000 ≤ genderDigit ∧ genderDigit ≤ 9999 then "Male"
        else form.gender
      { form with
        dateOfBirth := dobString, gender := gender,
        validationShown := false, successShown := true }
    else
      { form with
        validationText := "Invalid date in ID number",
        validationShown := true, successShown := false }
  else if idNumber.length > 0 then
    { form with
      validationText := "ID number must be exactly 13 digits",
      validationShown := true, successShown := false }
  else
    { form with validationShown := false, successShown := false }

/-- The value `val` of lines 216-220 of `populateEditModal`, the derived hourly
rate before `toFixed(2)`.  For an hourly employee it is `employee.salary`
itself, `none` when the field is absent; in a division an absent salary is
taken as `undefined`, which divides to `NaN`. -/
def derivedHourlyRate (employee : EmployeeData) : Option JSNum :=
  if employee.salary_type = some "hourly" then
    employee.salary.map num
  else if employee.salary_type = some "daily" then
    some (parseFloatField employee.salary / num (fieldOr employee.ordinary_hours_per_day 8))
  else
    some (parseFloatField employee.salary
      / (num (fieldOr employee.ordinary_hours_per_day 8)
          * num (fieldOr employee.work_days_per_month 22)))

end EmployeeModal

/-! ## The portfolio dashboard (`portfolio_dashboard.js`) -/

namespace PortfolioDashboard

/-- A `tr` of `#portfolioTable`: the `textContent` of the cells that hold
text, cells 0, 1, 2 and 5. -/
structure Row where
  name : String
  sector : String
  status : String
  compliance : String
deriving DecidableEq

/-- The columns of `sortTable` whose keys are strings.  The cases `'lastrun'`
and `'employees'`, which parse a date and an integer, are not modelled. -/
inductive Column where
  | name : Column
  | sector : Column
  | status : Column
  | compliance : Column
deriving DecidableEq

/-- A sort direction. -/
inductive Direction where
  | asc : Direction
  | desc : Direction
deriving DecidableEq

/-- The state of a `PortfolioDashboard` object and the rows of the table body. -/
structure Dashboard where
  currentMonth : ℤ
  currentYear : ℤ
  sortDirection : Column → Option Direction
  rows : List Row

/-- The method `previousMonth` (lines 86-93); `renderMiniCalendar` reads the two
fields and rewrites only the calendar element. -/
def previousMonth (d : Dashboard) : Dashboard :=
  let month := d.currentMonth - 1
  if month < 0 then { d with currentMonth := 11, currentYear := d.currentYear - 1 }
  else { d with currentMonth := month }

/-- The method `nextMonth` (lines 95-102). -/
def nextMonth (d : Dashboard) : Dashboard :=
  let month := d.currentMonth + 1
  if month > 11 then { d with currentMonth := 0, currentYear := d.currentYear + 1 }
  else { d with currentMonth := month }

/-- The comparison `a < b` of two strings: lexicographic on their code units
(code points here; the two orders agree on strings without astral
characters). -/
def strLt : List Char → List Char → Bool
  | [], [] => false
  | [], _ :: _ => true
  | _ :: _, [] => false
  | a :: as, b :: bs =>
    if a.toNat < b.toNat then true
    else if b.toNat < a.toNat then false
    else strLt as bs

/-- The method `s.trim()`. -/
def trim (s : List Char) : List Char :=
  ((s.dropWhile EmployeeModal.isWhiteSpace).reverse.dropWhile EmployeeModal.isWhiteSpace).reverse

/-- The method `s.includes(sub)`. -/
def includes (s sub : List Char) : Bool :=
  s.tails.any fun t => sub.isPrefixOf t

/-- The key `cell.textContent.trim().toLowerCase()` of a text cell. -/
def textKey (cell : String) : List Char :=
  (trim cell.data).map Char.toLower

/-- The tail of the comparator (lines 212-214) on two keys. -/
def compareKeys (direction : Direction) (aVal bVal : List Char) : ℤ :=
  if strLt aVal bVal then (if direction = Direction.asc then -1 else 1)
  else if strLt bVal aVal then (if direction = Direction.asc then 1 else -1)
  else 0

/-- The comparator passed to `rows.sort` (lines 177-215) for a text column. -/
def compareRows (column : Column) (direction : Direction) (a b : Row) : ℤ :=
  match column with
  | Column.name => compareKeys direction (textKey a.name) (textKey b.name)
  | Column.sector => compareKeys direction (textKey a.sector) (textKey b.sector)
  | Column.status => compareKeys direction (textKey a.status) (textKey b.status)
  | Column.compliance =>
    let aCompliant := includes a.compliance.data "Compliant".data
    let bCompliant := includes b.compliance.data "Compliant".data
    if aCompliant && !bCompliant then (if direction = Direction.asc then -1 else 1)
    else if !aCompliant && bCompliant then (if direction = Direction.asc then 1 else -1)
    else compareKeys direction (textKey a.compliance) (textKey b.compliance)

/-- The call `rows.sort(cmp)`: a stable sort, `a` staying before `b` unless
`cmp(a, b) > 0`. -/
def sortRows (cmp : Row → Row → ℤ) (rows : List Row) : List Row :=
  rows.insertionSort fun a b => cmp a b ≤ 0

/-- The method `sortTable(column)` (lines 166-228) for a text column: the
direction of the column is toggled, `asc` on the first call, and the rows are
appended to the table body in sorted order. -/
def sortTable (column : Column) (d : Dashboard) : Dashboard :=
  let direction :=
    if d.sortDirection column = some Direction.asc then Direction.desc else Direction.asc
  { d with
    sortDirection := fun c => if c = column then some direction else d.sortDirection c,
    rows := sortRows (compareRows column direction) d.rows }

end PortfolioDashboard

/-- Lines 98-106 inside `populatePayrollModal`: the panel filled for the
decoded response, from the `hourlyRate` derived at lines 19-31; `none` when
the function did not reach them (the fetch failed, or line 18 threw on an
absent `salary_type`). -/
def populatePayrollModal.ratePanel (card : ConfigCard) (response : Option EmployeeData) :
    Option RatePanel :=
  match response with
  | none => none
  | some data =>
    match data.salary_type with
    | none => none
    | some salaryType => some (Payroll.ratePanel card (deriveRates data salaryType).hourlyRate)

/-! ## The document that `calculatePayroll` reads and writes -/

/-- What an element of the payroll page holds, one content per element: the
text of an input, the selected value of a select, or a text written by the
calculator, identified by the number it formats. -/
inductive Content where
  | value (t : NumText) : Content
  | choice (s : String) : Content
  | shown (x : JSNum) : Content
deriving DecidableEq

/-- The string `el.value` handed to `parseFloat`; a selected value or a text
written by the calculator is a text that `parseFloat` does not read. -/
def Content.inputValue : Content → NumText
  | Content.value t => t
  | Content.choice _ => NumText.text nan
  | Content.shown _ => NumText.text nan

/-- The string `typeSelect.value`; for an element that is not a select, a
string that reads neither `percentage` nor `calculated`. -/
def Content.selectValue : Content → String
  | Content.choice s => s
  | Content.value _ => ""
  | Content.shown _ => ""

/-- A `tr` of `#payrollDeductionsTableBody` in the document: its three `data-*`
attributes and, for a class selector, the descendant that
`row.querySelector` finds (`none` when there is none).  In the markup of lines
214-218 and 227-243 the elements with the classes `amount-type-select`,
`deduction-value` and `deduction-amount` are three different elements. -/
structure DocRow where
  amountType : Option String
  value : Option NumText
  beneficiaryType : Option String
  parts : String → Option Content

/-- What lines 272-281 and 285-287 read of a row. -/
def DocRow.read (r : DocRow) : TableRow :=
  { amountType := r.amountType, value := r.value, beneficiaryType := r.beneficiaryType,
    typeSelect := (r.parts ".amount-type-select").map Content.selectValue,
    valueInput := (r.parts ".deduction-value").map Content.inputValue }

/-- Lines 291-292: `cell.textContent` is set when the row has a
`.deduction-amount` element. -/
def DocRow.showAmount (amount : JSNum) (r : DocRow) : DocRow :=
  match r.parts ".deduction-amount" with
  | some _ =>
    { r with parts := Function.update r.parts ".deduction-amount" (some (Content.shown amount)) }
  | none => r

/-- The payroll page as a document: the content of the elements by `id`, their
`style.display` by `id`, and the rows of the deductions table. -/
structure Document where
  elements : String → Content
  display : String → String
  rows : List DocRow

/-- What `calculatePayroll` reads of the document (lines 300-305, 326 and
271-287): the values of seven inputs and the rows. -/
def Document.dom (doc : Document) : Dom :=
  { ordinary_hours := (doc.elements "ordinary_hours").inputValue,
    overtime_hours := (doc.elements "overtime_hours").inputValue,
    sunday_hours := (doc.elements "sunday_hours").inputValue,
    public_holiday_hours := (doc.elements "public_holiday_hours").inputValue,
    allowances := (doc.elements "allowances").inputValue,
    bonus_amount := (doc.elements "bonus_amount").inputValue,
    pieces_produced := (doc.elements "pieces_produced").inputValue,
    rows := doc.rows.map DocRow.read }

/-- A sequence of assignments `document.getElementById(id).textContent = …`,
carried out in order. -/
def setContents (writes : List (String × Content)) (elements : String → Content) :
    String → Content :=
  writes.foldl (fun e w => Function.update e w.1 w.2) elements

/-- The texts that `calculateRecurringDeductions` and `calculatePayroll` write
to elements with an `id`, in source order: line 295, lines 372-380 and the
`fields` of lines 386-397, each formatted from `v * multiplier` with
`multiplier = 1`. -/
def previewWrites (b : Breakdown) (allowances : JSNum) : List (String × Content) :=
  [("preview-recurring-total", Content.shown b.recurringTotal),
   ("preview-gross-pay", Content.shown b.grossPay),
   ("preview-medical-credit", Content.shown b.medicalAidTaxCredit),
   ("preview-fringe-benefit", Content.shown b.fringeBenefit),
   ("preview-paye", Content.shown b.paye),
   ("preview-uif", Content.shown b.uif),
   ("preview-sdl", Content.shown b.sdl),
   ("preview-total-deductions", Content.shown b.totalDeductions),
   ("preview-net-pay", Content.shown b.netPay),
   ("preview-net-pay-summary", Content.shown b.netPay),
   ("tax-gross-income", Content.shown (b.grossPay * num 1)),
   ("tax-allowances", Content.shown (allowances * num 1)),
   ("tax-fringe-benefit", Content.shown (b.fringeBenefit * num 1)),
   ("tax-taxable-income", Content.shown (b.adjustedGrossPay * num 1)),
   ("tax-paye-calc", Content.shown (b.adjustedGrossPay * num 0.18 * num 1)),
   ("tax-uif", Content.shown (b.uif * num 1)),
   ("tax-sdl", Content.shown (b.sdl * num 1)),
   ("tax-medical-credit", Content.shown (b.medicalAidTaxCredit * num 1)),
   ("tax-paye-after-credit", Content.shown (b.paye * num 1)),
   ("tax-net-pay", Content.shown (b.netPay * num 1))]

/-- The `id`s of the elements whose text `calculateRecurringDeductions` and
`calculatePayroll` set. -/
def writtenIds : List String :=
  ["preview-recurring-total", "preview-gross-pay", "preview-medical-credit",
   "preview-fringe-benefit", "preview-paye", "preview-uif", "preview-sdl",
   "preview-total-deductions", "preview-net-pay", "preview-net-pay-summary",
   "tax-gross-income", "tax-allowances", "tax-fringe-benefit", "tax-taxable-income",
   "tax-paye-calc", "tax-uif", "tax-sdl", "tax-medical-credit", "tax-paye-after-credit",
   "tax-net-pay"]

/-- The `id`s of the inputs whose value `calculatePayroll` reads. -/
def readIds : List String :=
  ["ordinary_hours", "overtime_hours", "sunday_hours", "public_holiday_hours", "allowances",
   "bonus_amount", "pieces_produced"]

/-- The writes of one run of `calculatePayroll` and of its call of
`calculateRecurringDeductions`, for the breakdown `b` and the `allowances`
computed from what was read: `#paye-row` is displayed (line 352), every row
gets its amount written to its `.deduction-amount` element (lines 291-292),
and the preview and tax elements, taken to exist, get their texts. -/
def Document.write (b : Breakdown) (allowances : JSNum) (doc : Document) : Document :=
  { elements := setContents (previewWrites b allowances) doc.elements,
    display := Function.update doc.display "paye-row" "block",
    rows := doc.rows.map fun r => r.showAmount (rowAmount b.grossPay r.read) }

/-- One run of `calculatePayroll` (lines 299-402) on the document: the
breakdown is computed from what is read, then written. -/
def Document.calculatePayroll (cur : EmployeeData) (doc : Document) : Document :=
  doc.write (Payroll.calculatePayroll cur doc.dom) (readInput doc.dom.allowances)

/-- The state that the handlers of the payroll page share:
`currentEmployeeData` and the document. -/
structure Session where
  currentEmployeeData : EmployeeData
  document : Document

/-- The handler `calculatePayroll()`: no statement of lines 269-402 assigns
`currentEmployeeData` or one of its properties. -/
def Session.calculatePayroll (s : Session) : Session :=
  { s with document := s.document.calculatePayroll s.currentEmployeeData }

/-! ## Double-precision addition -/

/-- The number of binary digits of `n`, found by halving at most `fuel`
times. -/
def bitLength : ℕ → ℕ → ℕ
  | 0, _ => 0
  | fuel + 1, n => if n = 0 then 0 else bitLength fuel (n / 2) + 1

/-- Rounding to 53 significant binary digits, to nearest with ties to even:
the rounding of the result of an IEEE-754 binary64 operation, for a number
counted in a fixed unit and below `2 ^ 128` units. -/
def round53 (n : ℕ) : ℕ :=
  let bits := bitLength 128 n
  if bits ≤ 53 then n
  else
    let sh := bits - 53
    let q := n / 2 ^ sh
    let r := n % 2 ^ sh
    let half := 2 ^ (sh - 1)
    if r > half ∨ (r = half ∧ q % 2 = 1) then (q + 1) * 2 ^ sh else q * 2 ^ sh

/-- The operator `a + b` on non-negative doubles counted in units of
`2 ^ (-60)`: the exact sum, rounded. -/
def doubleAdd (a b : ℕ) : ℕ :=
  round53 (a + b)

/-- The accumulation `total = 0; … total += calc` of lines 270-293 over the
amounts of the rows in table order, for a number type with its addition. -/
def accumulate {α : Type} (add : α → α → α) (zero : α) (amounts : List α) : α :=
  amounts.foldl add zero

/-! ## Example inputs -/

/-- An hourly employee paid 100 per hour, loaded into `currentEmployeeData`
with the stored `hourly_rate`, exempt from PAYE and contributing to neither
UIF nor SDL. -/
def hourlyHundred : EmployeeData :=
  { EmployeeData.initial with
    salary_type := some "hourly", salary := some 100, hourly_rate := some (num 100),
    paye_exempt := some true }

/-- A page with every numeric input empty and no deduction rows. -/
def emptyDom : Dom :=
  { ordinary_hours := NumText.empty, overtime_hours := NumText.empty,
    sunday_hours := NumText.empty, public_holiday_hours := NumText.empty,
    allowances := NumText.empty, bonus_amount := NumText.empty,
    pieces_produced := NumText.empty, rows := [] }

/-- A row added with the add-deduction button: amount type `Fixed`, value `v`. -/
def fixedRow (v : ℚ) : TableRow :=
  { amountType := none, value := none, beneficiaryType := none,
    typeSelect := some "Fixed", valueInput := some (NumText.text (num v)) }

/-- Ten ordinary hours entered and one fixed deduction of 1500. -/
def overdrawnDom : Dom :=
  { emptyDom with ordinary_hours := NumText.text (num 10), rows := [fixedRow 1500] }

/-- A monthly employee with no other field set. -/
def monthlyBlank : EmployeeData :=
  { EmployeeData.initial with salary_type := some "monthly" }

/-- The record of an hourly employee paid 100 per hour, as served. -/
def hourlyRecord : EmployeeData :=
  { EmployeeData.initial with salary_type := some "hourly", salary := some 100 }

/-- The page before any employee was loaded. -/
def blankPage : Page :=
  { currentEmployeeData := EmployeeData.initial, dom := emptyDom, preview := none }

/-- 160 ordinary hours and 10 overtime hours entered, nothing else. -/
def hoursDom : Dom :=
  { emptyDom with ordinary_hours := NumText.text (num 160),
                  overtime_hours := NumText.text (num 10) }

/-- A daily employee paid 500 per day of 8 hours. -/
def dailyFiveHundred : EmployeeData :=
  { EmployeeData.initial with
    salary_type := some "daily", salary := some 500, ordinary_hours_per_day := some 8 }

/-- Twenty entered in the ordinary-hours field. -/
def twentyDom : Dom :=
  { emptyDom with ordinary_hours := NumText.text (num 20) }

/-- A row added with the add-deduction button: amount type `Percentage`,
value `v`. -/
def percentageRow (v : ℚ) : TableRow :=
  { amountType := none, value := none, beneficiaryType := none,
    typeSelect := some "Percentage", valueInput := some (NumText.text (num v)) }

/-- Two hundred ordinary hours entered and one percentage deduction of 7.5. -/
def percentageDom : Dom :=
  { emptyDom with ordinary_hours := NumText.text (num 200), rows := [percentageRow 7.5] }

/-- An hourly employee paid 100 per hour who contributes to UIF. -/
def uifHundred : EmployeeData :=
  { hourlyHundred with uif_contributing := some true }

/-- Two hundred and fifty ordinary hours entered, nothing else. -/
def longMonthDom : Dom :=
  { emptyDom with ordinary_hours := NumText.text (num 250) }

/-- An hourly employee paid 100 per hour, exempt from PAYE, with a medical-aid
tax credit of 364. -/
def exemptWithCredit : EmployeeData :=
  { hourlyHundred with medical_aid_tax_credit := some 364 }

/-- A piece-work employee who contributes to SDL, with no other field set. -/
def pieceSdl : EmployeeData :=
  { EmployeeData.initial with salary_type := some "piece", sdl_contributing := some true }

/-- Only a bonus of `x` entered. -/
def bonusDom (x : ℚ) : Dom :=
  { emptyDom with bonus_amount := NumText.text (num x) }

/-- A medical-aid deduction of the employee record with amount type
`Calculated` and the resolved value 500. -/
def medicalAidDeduction : Deduction :=
  { beneficiary_name := "Scheme", deduction_type := some "Medical Aid",
    beneficiary_type := none, amount_type := some "Calculated", value := some 500,
    is_active := JSBool.bool true, enabled := JSBool.undefined }

/-- A medical-aid member without dependants whose record carries
`medicalAidDeduction`. -/
def memberRecord : EmployeeData :=
  { hourlyHundred with
    medical_aid_member := some true, medical_aid_dependants := some 0,
    recurring_deductions := some [medicalAidDeduction] }

/-- The page whose table was built from `memberRecord`, with 10 hours entered. -/
def memberDom : Dom :=
  { emptyDom with ordinary_hours := NumText.text (num 10),
                  rows := (buildDeductionsTable memberRecord).1 }

/-- The row that `buildDeductionsTable` creates for `medicalAidDeduction`. -/
def medicalAidRow : TableRow :=
  { amountType := some "Calculated", value := some (NumText.text (num 500)),
    beneficiaryType := some "Medical Aid", typeSelect := none, valueInput := none }

/-- The record of a monthly employee with salary 17600 and no
`monthly_salary`, `ordinary_hours_per_day` or `work_days_per_month`. -/
def monthlyRecord : EmployeeData :=
  { EmployeeData.initial with salary_type := some "monthly", salary := some 17600 }

/-- The record of an hourly employee paid 100 per hour who is not eligible for
overtime. -/
def ineligibleRecord : EmployeeData :=
  { EmployeeData.initial with
    salary_type := some "hourly", salary := some 100, overtime_eligible := some false }

/-- Ten overtime hours entered, nothing else. -/
def overtimeDom : Dom :=
  { emptyDom with overtime_hours := NumText.text (num 10) }

/-- An hourly employee paid 100 per hour, loaded, not eligible for overtime. -/
def ineligibleHourly : EmployeeData :=
  { hourlyHundred with overtime_eligible := some false }

/-- A piece-work employee paid 2.5 per piece. -/
def pieceWorker : EmployeeData :=
  { EmployeeData.initial with salary_type := some "piece", piece_rate := some 2.5 }

/-- A hundred pieces entered, nothing else. -/
def piecesDom : Dom :=
  { emptyDom with pieces_produced := NumText.text (num 100) }

/-- An active recurring deduction of 250 whose `amount_type` is the empty
string. -/
def untypedDeduction : Deduction :=
  { beneficiary_name := "Union", deduction_type := some "Union fee",
    beneficiary_type := none, amount_type := some "", value := some 250,
    is_active := JSBool.bool true, enabled := JSBool.undefined }

/-- The record of an hourly employee paid 100 per hour that carries
`untypedDeduction`. -/
def untypedRecord : EmployeeData :=
  { hourlyRecord with recurring_deductions := some [untypedDeduction] }

/-- The row that `buildDeductionsTable` creates for `untypedDeduction`. -/
def untypedRow : TableRow :=
  { amountType := some "", value := some (NumText.text (num 250)),
    beneficiaryType := some "Union fee", typeSelect := none, valueInput := none }

/-- The record of a daily employee without a `salary` field, exempt from PAYE. -/
def dailyNoSalary : EmployeeData :=
  { EmployeeData.initial with salary_type := some "daily", paye_exempt := some true }

/-- The record `dailyNoSalary` with the salary `0`. -/
def dailyZeroSalary : EmployeeData :=
  { dailyNoSalary with salary := some 0 }

/-- A medical-aid deduction with `is_active` true and `enabled` false. -/
def mixedFlagsDeduction : Deduction :=
  { beneficiary_name := "Scheme", deduction_type := some "Medical Aid",
    beneficiary_type := none, amount_type := some "Fixed", value := some 300,
    is_active := JSBool.bool true, enabled := JSBool.bool false }

/-- The record of an hourly employee paid 100 per hour that carries
`mixedFlagsDeduction`. -/
def mixedFlagsRecord : EmployeeData :=
  { hourlyRecord with recurring_deductions := some [mixedFlagsDeduction] }

/-- An inactive deduction followed by an active one. -/
def twoDeductions : List Deduction :=
  [{ beneficiary_name := "Loan", deduction_type := some "Loan", beneficiary_type := none,
     amount_type := some "Fixed", value := some 100,
     is_active := JSBool.bool false, enabled := JSBool.undefined },
   { beneficiary_name := "Union", deduction_type := some "Union fee", beneficiary_type := none,
     amount_type := some "Percentage", value := some 1,
     is_active := JSBool.undefined, enabled := JSBool.bool true }]

/-- A served record without `salary_type`. -/
def partialRecord : EmployeeData :=
  { EmployeeData.initial with salary := some 100 }

/-- The page after the hourly record was loaded into a blank page. -/
def loadedPage : Page :=
  (populatePayrollModal (some hourlyRecord) blankPage).1

/-- The page `page` after 10 was typed into the overtime-hours input. -/
def typeOvertime (page : Page) : Page :=
  { page with dom := { page.dom with overtime_hours := NumText.text (num 10) } }

/-- A configuration card without multiplier attributes. -/
def plainCard : ConfigCard :=
  { ot := none, sun := none, hol := none }

/-- One hour entered in each of the overtime, Sunday and public-holiday
inputs. -/
def oneHourEachDom : Dom :=
  { emptyDom with overtime_hours := NumText.text (num 1),
                  sunday_hours := NumText.text (num 1),
                  public_holiday_hours := NumText.text (num 1) }

/-- An active deduction of 100 without `amount_type`. -/
def loanDeduction : Deduction :=
  { beneficiary_name := "Loan", deduction_type := some "Loan", beneficiary_type := none,
    amount_type := none, value := some 100,
    is_active := JSBool.bool true, enabled := JSBool.undefined }

/-- The record of an hourly employee paid 100 per hour that carries
`loanDeduction`. -/
def malformedRecord : EmployeeData :=
  { hourlyRecord with recurring_deductions := some [loanDeduction] }

/-- The record `malformedRecord` with the deduction labelled medical aid. -/
def malformedMedicalRecord : EmployeeData :=
  { hourlyRecord with
    recurring_deductions := some [{ loanDeduction with deduction_type := some "Medical Aid" }] }

/-- The form of the edit modal with every field empty and no message. -/
def blankForm : EmployeeModal.EditForm :=
  { dateOfBirth := "", gender := "", validationText := "",
    validationShown := false, successShown := false }

/-- A payroll page with three employees, the second not yet verified, and a
process button. -/
def threeEmployees : VerificationPage :=
  { statuses := [some "true", some "false", some "true"],
    verifiedCount := 0, pendingCount := 0, processDisabled := some false }

/-- Three rows of the portfolio table: 2 issues, 10 issues, compliant. -/
def issueRows : List PortfolioDashboard.Row :=
  [{ name := "Acme", sector := "Retail", status := "Processed", compliance := "2 issues" },
   { name := "Birch", sector := "Mining", status := "Pending", compliance := "10 issues" },
   { name := "Cedar", sector := "Farming", status := "Processed", compliance := "Compliant" }]

/-- A dashboard in January 2025 whose table was never sorted. -/
def freshDashboard : PortfolioDashboard.Dashboard :=
  { currentMonth := 0, currentYear := 2025, sortDirection := fun _ => none,
    rows := issueRows }

/-- A configuration card with the multipliers 1.75, 2.25 and 3. -/
def tunedCard : ConfigCard :=
  { ot := some (NumText.text (num 1.75)), sun := some (NumText.text (num 2.25)),
    hol := some (NumText.text (num 3)) }

/-- The double nearest to 0.1, `0x1.999999999999ap-4`, in units of `2 ^ (-60)`. -/
def tenth : ℕ := 7205759403792794 * 16

/-- The double nearest to 0.2, `0x1.999999999999ap-3`, in units of `2 ^ (-60)`. -/
def fifth : ℕ := 7205759403792794 * 32

/-- The double nearest to 0.3, `0x1.3333333333333p-2`, in units of `2 ^ (-60)`. -/
def threeTenths : ℕ := 5404319552844595 * 64

/-- A row added with the add-deduction button, in the document: a select on
`Percentage`, a value input holding 7.5 and an amount element. -/
def percentageDocRow : DocRow :=
  { amountType := none, value := none, beneficiaryType := none,
    parts := fun c =>
      if c = ".amount-type-select" then some (Content.choice "Percentage")
      else if c = ".deduction-value" then some (Content.value (NumText.text (num 7.5)))
      else if c = ".deduction-amount" then some (Content.shown (num 0))
      else none }

/-- A document with 200 ordinary hours entered, every other element empty,
and one percentage row. -/
def percentageDocument : Document :=
  { elements := fun id =>
      if id = "ordinary_hours" then Content.value (NumText.text (num 200))
      else Content.value NumText.empty,
    display := fun _ => "",
    rows := [percentageDocRow] }

/-- The session of a loaded hourly employee paid 100 on `percentageDocument`. -/
def percentageSession : Session :=
  { currentEmployeeData := hourlyHundred, document := percentageDocument }

/-! ## Basic facts about the number model -/

theorem readInput_num {q : ℚ} (h : q ≠ 0) : readInput (NumText.text (num q)) = num q := by
  simp [readInput, parseFloat, JSNum.orElse, JSNum.truthy, h]

theorem readInput_empty : readInput NumText.empty = num 0 := by
  simp [readInput, parseFloat, JSNum.orElse, JSNum.truthy]

theorem num_add (a b : ℚ) : num a + num b = num (a + b) := rfl

theorem num_sub (a b : ℚ) : num a - num b = num (a - b) := rfl

theorem num_mul (a b : ℚ) : num a * num b = num (a * b) := rfl

theorem num_div {a b : ℚ} (h : b ≠ 0) : num a / num b = num (a / b) := by
  show JSNum.div (num a) (num b) = num (a / b)
  simp [JSNum.div, h]

/-! ## Gross pay, deductions and net pay -/

theorem grossPay_eq (cur : EmployeeData) (dom : Dom) :
    (calculatePayroll cur dom).grossPay
      = (calculatePayroll cur dom).ordinaryPay + (calculatePayroll cur dom).overtimePay
        + (calculatePayroll cur dom).sundayPay + (calculatePayroll cur dom).publicHolidayPay
        + readInput dom.allowances + readInput dom.bonus_amount := rfl

theorem adjustedGrossPay_eq (cur : EmployeeData) (dom : Dom) :
    (calculatePayroll cur dom).adjustedGrossPay
      = (calculatePayroll cur dom).grossPay + num (fieldOr cur.fringe_benefit_amount 0) := rfl

theorem rowAmounts_eq (cur : EmployeeData) (dom : Dom) :
    (calculatePayroll cur dom).rowAmounts
      = dom.rows.map (rowAmount (calculatePayroll cur dom).grossPay) := rfl

theorem rowAmounts_get (cur : EmployeeData) (dom : Dom) (i : ℕ) (row : TableRow)
    (h : dom.rows[i]? = some row) :
    (calculatePayroll cur dom).rowAmounts[i]?
      = some (rowAmount (calculatePayroll cur dom).grossPay row) := by
  rw [rowAmounts_eq, List.getElem?_map, h]
  rfl

/-- Claim C1: gross pay is the sum of ordinary pay, the three premium pays, allowances
and bonus, in that order; replacing `fringe_benefit_amount` by any other value
changes none of the pay components, gross pay or the deduction rows; the
fringe benefit enters through `adjustedGrossPay = grossPay + fringeBenefit`. -/
theorem calculatePayroll_grossPay (cur : EmployeeData) (dom : Dom) :
    (calculatePayroll cur dom).grossPay
        = (calculatePayroll cur dom).ordinaryPay + (calculatePayroll cur dom).overtimePay
          + (calculatePayroll cur dom).sundayPay + (calculatePayroll cur dom).publicHolidayPay
          + readInput dom.allowances + readInput dom.bonus_amount
      ∧ (∀ f : Option ℚ,
          (calculatePayroll { cur with fringe_benefit_amount := f } dom).grossPay
              = (calculatePayroll cur dom).grossPay
            ∧ (calculatePayroll { cur with fringe_benefit_amount := f } dom).ordinaryPay
              = (calculatePayroll cur dom).ordinaryPay
            ∧ (calculatePayroll { cur with fringe_benefit_amount := f } dom).overtimePay
              = (calculatePayroll cur dom).overtimePay
            ∧ (calculatePayroll { cur with fringe_benefit_amount := f } dom).sundayPay
              = (calculatePayroll cur dom).sundayPay
            ∧ (calculatePayroll { cur with fringe_benefit_amount := f } dom).publicHolidayPay
              = (calculatePayroll cur dom).publicHolidayPay
            ∧ (calculatePayroll { cur with fringe_benefit_amount := f } dom).recurringTotal
              = (calculatePayroll cur dom).recurringTotal)
      ∧ (calculatePayroll cur dom).fringeBenefit = num (fieldOr cur.fringe_benefit_amount 0)
      ∧ (calculatePayroll cur dom).adjustedGrossPay
        = (calculatePayroll cur dom).grossPay + (calculatePayroll cur dom).fringeBenefit := by
  refine ⟨rfl, fun f => ⟨rfl, rfl, rfl, rfl, rfl, rfl⟩, rfl, rfl⟩

/-- Claim C2: total deductions are `paye + uif + sdl + recurringTotal`, net pay is
`grossPay - totalDeductions` with no floor at zero, and for an hourly employee
at 100 per hour with 10 hours and a fixed deduction of 1500 the net pay is
`-500`. -/
theorem calculatePayroll_netPay :
    (∀ (cur : EmployeeData) (dom : Dom),
        (calculatePayroll cur dom).totalDeductions
            = (calculatePayroll cur dom).paye + (calculatePayroll cur dom).uif
              + (calculatePayroll cur dom).sdl + (calculatePayroll cur dom).recurringTotal
          ∧ (calculatePayroll cur dom).netPay
            = (calculatePayroll cur dom).grossPay - (calculatePayroll cur dom).totalDeductions)
      ∧ (calculatePayroll hourlyHundred overdrawnDom).grossPay = num 1000
      ∧ (calculatePayroll hourlyHundred overdrawnDom).totalDeductions = num 1500
      ∧ (calculatePayroll hourlyHundred overdrawnDom).netPay = num (-500)
      ∧ JSNum.lt (calculatePayroll hourlyHundred overdrawnDom).netPay (num 0) = true := by
  have hg : (calculatePayroll hourlyHundred overdrawnDom).grossPay = num 1000 := by
    simp [calculatePayroll, hourlyHundred, overdrawnDom, emptyDom, EmployeeData.initial,
      readInput_empty, readInput_num, toNumber, num_add, num_mul]
    norm_num
  have hr : (calculatePayroll hourlyHundred overdrawnDom).recurringTotal = num 1500 := by
    simp [calculatePayroll, calculateRecurringDeductions, rowAmount, rowTypeValue, fixedRow,
      overdrawnDom, emptyDom, parseFloat, toLowerCase, num_add]
  have hp : (calculatePayroll hourlyHundred overdrawnDom).paye = num 0 := by
    simp [calculatePayroll, hourlyHundred, flag]
  have hu : (calculatePayroll hourlyHundred overdrawnDom).uif = num 0 := by
    simp [calculatePayroll, hourlyHundred, EmployeeData.initial, flag]
  have hs : (calculatePayroll hourlyHundred overdrawnDom).sdl = num 0 := by
    simp [calculatePayroll, hourlyHundred, EmployeeData.initial, flag]
  have ht : (calculatePayroll hourlyHundred overdrawnDom).totalDeductions = num 1500 := by
    have h : (calculatePayroll hourlyHundred overdrawnDom).totalDeductions
        = (calculatePayroll hourlyHundred overdrawnDom).paye
          + (calculatePayroll hourlyHundred overdrawnDom).uif
          + (calculatePayroll hourlyHundred overdrawnDom).sdl
          + (calculatePayroll hourlyHundred overdrawnDom).recurringTotal := rfl
    rw [h, hp, hu, hs, hr]
    simp [num_add]
  have hn : (calculatePayroll hourlyHundred overdrawnDom).netPay = num (-500) := by
    have h : (calculatePayroll hourlyHundred overdrawnDom).netPay
        = (calculatePayroll hourlyHundred overdrawnDom).grossPay
          - (calculatePayroll hourlyHundred overdrawnDom).totalDeductions := rfl
    rw [h, hg, ht, num_sub]
    norm_num
  refine ⟨fun cur dom => ⟨rfl, rfl⟩, hg, ht, hn, ?_⟩
  rw [hn]
  simp [JSNum.lt]

/-- Claim C3: when `salary_type` is `monthly` or `piece`, overtime, Sunday and
public-holiday pay are `0`, and gross pay is the same whatever is entered for
those three hours fields and whatever `overtime_eligible` is. -/
theorem calculatePayroll_premium_monthly_piece (cur : EmployeeData) (dom : Dom)
    (h : cur.salary_type = some "monthly" ∨ cur.salary_type = some "piece") :
    (calculatePayroll cur dom).overtimePay = num 0
      ∧ (calculatePayroll cur dom).sundayPay = num 0
      ∧ (calculatePayroll cur dom).publicHolidayPay = num 0
      ∧ ∀ (ot su ph : NumText) (oe : Option Bool),
          (calculatePayroll { cur with overtime_eligible := oe }
              { dom with overtime_hours := ot, sunday_hours := su,
                         public_holiday_hours := ph }).overtimePay = num 0
            ∧ (calculatePayroll { cur with overtime_eligible := oe }
              { dom with overtime_hours := ot, sunday_hours := su,
                         public_holiday_hours := ph }).sundayPay = num 0
            ∧ (calculatePayroll { cur with overtime_eligible := oe }
              { dom with overtime_hours := ot, sunday_hours := su,
                         public_holiday_hours := ph }).publicHolidayPay = num 0
            ∧ (calculatePayroll { cur with overtime_eligible := oe }
              { dom with overtime_hours := ot, sunday_hours := su,
                         public_holiday_hours := ph }).grossPay
              = (calculatePayroll cur dom).grossPay := by
  rcases h with h | h <;> simp [calculatePayroll, h]

/-- Claim C3 at a monthly employee and an empty page. -/
theorem calculatePayroll_premium_monthly_piece_witness :
    (calculatePayroll monthlyBlank emptyDom).overtimePay = num 0
      ∧ (calculatePayroll monthlyBlank emptyDom).sundayPay = num 0
      ∧ (calculatePayroll monthlyBlank emptyDom).publicHolidayPay = num 0
      ∧ ∀ (ot su ph : NumText) (oe : Option Bool),
          (calculatePayroll { monthlyBlank with overtime_eligible := oe }
              { emptyDom with overtime_hours := ot, sunday_hours := su,
                              public_holiday_hours := ph }).overtimePay = num 0
            ∧ (calculatePayroll { monthlyBlank with overtime_eligible := oe }
              { emptyDom with overtime_hours := ot, sunday_hours := su,
                              public_holiday_hours := ph }).sundayPay = num 0
            ∧ (calculatePayroll { monthlyBlank with overtime_eligible := oe }
              { emptyDom with overtime_hours := ot, sunday_hours := su,
                              public_holiday_hours := ph }).publicHolidayPay = num 0
            ∧ (calculatePayroll { monthlyBlank with overtime_eligible := oe }
              { emptyDom with overtime_hours := ot, sunday_hours := su,
                              public_holiday_hours := ph }).grossPay
              = (calculatePayroll monthlyBlank emptyDom).grossPay :=
  calculatePayroll_premium_monthly_piece monthlyBlank emptyDom (Or.inl rfl)

/-! ## What `populatePayrollModal` stores -/

/-- The fields of `currentEmployeeData` that the rate and ordinary-pay branches
of `calculatePayroll` read, after `populatePayrollModal` received the record
`data` with a `salary_type`: the record's own fields and the two derived
properties.  This holds whether or not the function later reached its end. -/
theorem populatePayrollModal_stored (data : EmployeeData) (page : Page) (st : String)
    (h : data.salary_type = some st) :
    (populatePayrollModal (some data) page).1.currentEmployeeData.salary_type = some st
      ∧ (populatePayrollModal (some data) page).1.currentEmployeeData.salary = data.salary
      ∧ (populatePayrollModal (some data) page).1.currentEmployeeData.monthly_salary
          = data.monthly_salary
      ∧ (populatePayrollModal (some data) page).1.currentEmployeeData.ordinary_hours_per_day
          = data.ordinary_hours_per_day
      ∧ (populatePayrollModal (some data) page).1.currentEmployeeData.work_days_per_month
          = data.work_days_per_month
      ∧ (populatePayrollModal (some data) page).1.currentEmployeeData.hourly_rate
          = some (deriveRates data st).hourlyRate
      ∧ (populatePayrollModal (some data) page).1.currentEmployeeData.work_hours
          = some (deriveRates data st).workHours := by
  simp only [populatePayrollModal, h]
  split_ifs <;> simp

/-- For an hourly `currentEmployeeData`, ordinary and premium pay are computed
from the stored `hourly_rate`. -/
theorem calculatePayroll_hourly (cur : EmployeeData) (dom : Dom)
    (h : cur.salary_type = some "hourly") :
    (calculatePayroll cur dom).hourlyRate = toNumber cur.hourly_rate
      ∧ (calculatePayroll cur dom).ordinaryPay
          = readInput dom.ordinary_hours * toNumber cur.hourly_rate
      ∧ (calculatePayroll cur dom).overtimePay
          = readInput dom.overtime_hours * toNumber cur.hourly_rate * num 1.5
      ∧ (calculatePayroll cur dom).sundayPay
          = readInput dom.sunday_hours * toNumber cur.hourly_rate * num 2.0
      ∧ (calculatePayroll cur dom).publicHolidayPay
          = readInput dom.public_holiday_hours * toNumber cur.hourly_rate * num 2.0 := by
  simp [calculatePayroll, h]

/-- Claim C4: after `populatePayrollModal` received an hourly record, every
`calculatePayroll` run gives `ordinaryPay = ordinaryHours * salary` and
`overtimePay = overtimeHours * salary * 1.5`; with salary 100, 160 ordinary
hours, 10 overtime hours and nothing else entered, ordinary pay is 16000,
overtime pay 1500 and gross pay 17500. -/
theorem calculatePayroll_hourly_loaded (data : EmployeeData) (page : Page) (dom : Dom)
    (h : data.salary_type = some "hourly") :
    (calculatePayroll (populatePayrollModal (some data) page).1.currentEmployeeData dom).ordinaryPay
        = readInput dom.ordinary_hours * parseFloatField data.salary
      ∧ (calculatePayroll (populatePayrollModal (some data) page).1.currentEmployeeData
            dom).overtimePay
        = readInput dom.overtime_hours * parseFloatField data.salary * num 1.5
      ∧ (data.salary = some 100 → readInput dom.ordinary_hours = num 160 →
          readInput dom.overtime_hours = num 10 → readInput dom.sunday_hours = num 0 →
          readInput dom.public_holiday_hours = num 0 → readInput dom.allowances = num 0 →
          readInput dom.bonus_amount = num 0 →
          (calculatePayroll (populatePayrollModal (some data) page).1.currentEmployeeData
              dom).ordinaryPay = num 16000
            ∧ (calculatePayroll (populatePayrollModal (some data) page).1.currentEmployeeData
              dom).overtimePay = num 1500
            ∧ (calculatePayroll (populatePayrollModal (some data) page).1.currentEmployeeData
              dom).grossPay = num 17500) := by
  obtain ⟨hst, -, -, -, -, hrate, -⟩ := populatePayrollModal_stored data page "hourly" h
  obtain ⟨-, hord, hot, hsun, hhol⟩ :=
    calculatePayroll_hourly (populatePayrollModal (some data) page).1.currentEmployeeData dom hst
  have hr : toNumber (populatePayrollModal (some data) page).1.currentEmployeeData.hourly_rate
      = parseFloatField data.salary := by
    rw [hrate]
    simp [toNumber, deriveRates]
  rw [hr] at hord hot hsun hhol
  refine ⟨hord, hot, ?_⟩
  intro hs h1 h2 h3 h4 h5 h6
  rw [grossPay_eq, hord, hot, hsun, hhol, hs, h1, h2, h3, h4, h5, h6]
  simp only [parseFloatField, num_mul, num_add]
  norm_num

/-- Claim C4 at the record of an hourly employee paid 100, loaded into a blank
page, with 160 ordinary and 10 overtime hours entered. -/
theorem calculatePayroll_hourly_loaded_witness :
    hourlyRecord.salary_type = some "hourly"
      ∧ (calculatePayroll (populatePayrollModal (some hourlyRecord) blankPage).1.currentEmployeeData
            hoursDom).ordinaryPay = num 16000
      ∧ (calculatePayroll (populatePayrollModal (some hourlyRecord) blankPage).1.currentEmployeeData
            hoursDom).overtimePay = num 1500
      ∧ (calculatePayroll (populatePayrollModal (some hourlyRecord) blankPage).1.currentEmployeeData
            hoursDom).grossPay = num 17500 :=
  ⟨rfl, (calculatePayroll_hourly_loaded hourlyRecord blankPage hoursDom rfl).2.2 rfl
    (readInput_num (by norm_num)) (readInput_num (by norm_num)) readInput_empty readInput_empty
    readInput_empty readInput_empty⟩

/-- Claim C5: for a daily employee `hourlyRate = salary / ordinary_hours_per_day`
(8 when the field is absent or zero) and the premium pays use it, while
`ordinaryPay = ordinaryHours * salary`; with salary 500, 8 hours per day and 20
entered, `hourlyRate = 62.5` and `ordinaryPay = 10000`. -/
theorem calculatePayroll_daily (cur : EmployeeData) (dom : Dom)
    (h : cur.salary_type = some "daily") :
    (calculatePayroll cur dom).hourlyRate
        = parseFloatField cur.salary / num (fieldOr cur.ordinary_hours_per_day 8)
      ∧ (∀ s d : ℚ, cur.salary = some s → cur.ordinary_hours_per_day = some d → d ≠ 0 →
          (calculatePayroll cur dom).hourlyRate = num (s / d))
      ∧ (calculatePayroll cur dom).overtimePay
          = readInput dom.overtime_hours * (calculatePayroll cur dom).hourlyRate * num 1.5
      ∧ (calculatePayroll cur dom).sundayPay
          = readInput dom.sunday_hours * (calculatePayroll cur dom).hourlyRate * num 2.0
      ∧ (calculatePayroll cur dom).publicHolidayPay
          = readInput dom.public_holiday_hours * (calculatePayroll cur dom).hourlyRate * num 2.0
      ∧ (calculatePayroll cur dom).ordinaryPay
          = readInput dom.ordinary_hours * parseFloatField cur.salary
      ∧ (cur.salary = some 500 → cur.ordinary_hours_per_day = some 8 →
          readInput dom.ordinary_hours = num 20 →
          (calculatePayroll cur dom).hourlyRate = num 62.5
            ∧ (calculatePayroll cur dom).ordinaryPay = num 10000) := by
  have hrate : (calculatePayroll cur dom).hourlyRate
      = parseFloatField cur.salary / num (fieldOr cur.ordinary_hours_per_day 8) := by
    simp [calculatePayroll, h]
  have hord : (calculatePayroll cur dom).ordinaryPay
      = readInput dom.ordinary_hours * parseFloatField cur.salary := by
    simp [calculatePayroll, h]
  have hquot : ∀ s d : ℚ, cur.salary = some s → cur.ordinary_hours_per_day = some d → d ≠ 0 →
      (calculatePayroll cur dom).hourlyRate = num (s / d) := by
    intro s d hs hd hne
    rw [hrate, hs, hd]
    simp [parseFloatField, fieldOr, hne, num_div]
  refine ⟨hrate, hquot, ?_, ?_, ?_, hord, ?_⟩
  · simp [calculatePayroll, h]
  · simp [calculatePayroll, h]
  · simp [calculatePayroll, h]
  · intro hs hd ho
    refine ⟨?_, ?_⟩
    · rw [hquot 500 8 hs hd (by norm_num)]
      norm_num
    · rw [hord, ho, hs]
      simp only [parseFloatField, num_mul]
      norm_num

/-- Claim C5 at a daily employee paid 500 per day of 8 hours with 20 entered. -/
theorem calculatePayroll_daily_witness :
    dailyFiveHundred.salary_type = some "daily"
      ∧ (calculatePayroll dailyFiveHundred twentyDom).hourlyRate = num 62.5
      ∧ (calculatePayroll dailyFiveHundred twentyDom).ordinaryPay = num 10000 :=
  ⟨rfl, (calculatePayroll_daily dailyFiveHundred twentyDom rfl).2.2.2.2.2.2 rfl rfl
    (readInput_num (by norm_num))⟩

/-! ## Recurring deductions: percentage rows -/

/-- Claim C6: for a row whose amount type reads `percentage`, the amount is
`grossPay * (value / 100)`, which is `grossPay * value / 100` for finite
operands; the base is the plain gross pay, so no row amount (nor the total)
changes with `fringe_benefit_amount`; for value 7.5 and gross pay 20000 the
amount is 1500. -/
theorem percentage_row_amount (cur : EmployeeData) (dom : Dom) (i : ℕ) (row : TableRow)
    (hrow : dom.rows[i]? = some row)
    (htype : toLowerCase (rowTypeValue row).1 = "percentage") :
    (calculatePayroll cur dom).rowAmounts[i]?
        = some ((calculatePayroll cur dom).grossPay * ((rowTypeValue row).2 / num 100))
      ∧ (∀ g v : ℚ, (calculatePayroll cur dom).grossPay = num g → (rowTypeValue row).2 = num v →
          (calculatePayroll cur dom).rowAmounts[i]? = some (num (g * v / 100)))
      ∧ (calculatePayroll cur dom).recurringTotal
          = dom.rows.foldl
              (fun total r => total + rowAmount (calculatePayroll cur dom).grossPay r) (num 0)
      ∧ (∀ f : Option ℚ,
          (calculatePayroll { cur with fringe_benefit_amount := f } dom).rowAmounts
              = (calculatePayroll cur dom).rowAmounts
            ∧ (calculatePayroll { cur with fringe_benefit_amount := f } dom).recurringTotal
              = (calculatePayroll cur dom).recurringTotal)
      ∧ ((calculatePayroll cur dom).grossPay = num 20000 → (rowTypeValue row).2 = num 7.5 →
          (calculatePayroll cur dom).rowAmounts[i]? = some (num 1500)) := by
  have hamt : (calculatePayroll cur dom).rowAmounts[i]?
      = some ((calculatePayroll cur dom).grossPay * ((rowTypeValue row).2 / num 100)) := by
    rw [rowAmounts_get cur dom i row hrow]
    simp [rowAmount, htype]
  have hfin : ∀ g v : ℚ, (calculatePayroll cur dom).grossPay = num g →
      (rowTypeValue row).2 = num v →
      (calculatePayroll cur dom).rowAmounts[i]? = some (num (g * v / 100)) := by
    intro g v hg hv
    rw [hamt, hg, hv, num_div (by norm_num), num_mul]
    congr 2
    ring
  refine ⟨hamt, hfin, rfl, fun f => ⟨rfl, rfl⟩, ?_⟩
  intro hg hv
  rw [hfin 20000 7.5 hg hv]
  norm_num

/-- Claim C6 at an hourly employee paid 100 with 200 hours and a 7.5 percent row. -/
theorem percentage_row_amount_witness :
    percentageDom.rows[0]? = some (percentageRow 7.5)
      ∧ toLowerCase (rowTypeValue (percentageRow 7.5)).1 = "percentage"
      ∧ (calculatePayroll hourlyHundred percentageDom).grossPay = num 20000
      ∧ (calculatePayroll hourlyHundred percentageDom).rowAmounts[0]? = some (num 1500) := by
  have hg : (calculatePayroll hourlyHundred percentageDom).grossPay = num 20000 := by
    simp [calculatePayroll, hourlyHundred, percentageDom, emptyDom, EmployeeData.initial,
      readInput_empty, readInput_num, toNumber, num_add, num_mul]
    norm_num
  have ht : toLowerCase (rowTypeValue (percentageRow 7.5)).1 = "percentage" := by
    simp [rowTypeValue, percentageRow, toLowerCase]
  exact ⟨rfl, ht, hg,
    (percentage_row_amount hourlyHundred percentageDom 0 (percentageRow 7.5) rfl ht).2.2.2.2 hg
      (by simp [rowTypeValue, percentageRow, parseFloat])⟩

/-! ## Statutory deductions -/

theorem paye_eq (cur : EmployeeData) (dom : Dom) :
    (calculatePayroll cur dom).paye
      = if !flag cur.paye_exempt then
          JSNum.max ((calculatePayroll cur dom).adjustedGrossPay * num 0.18
            - num (fieldOr cur.medical_aid_tax_credit 0)) (num 0)
        else num 0 := rfl

theorem uif_eq (cur : EmployeeData) (dom : Dom) :
    (calculatePayroll cur dom).uif
      = if flag cur.uif_contributing then
          JSNum.min (calculatePayroll cur dom).adjustedGrossPay (num 17712.00) * num 0.01
        else num 0 := rfl

theorem sdl_eq (cur : EmployeeData) (dom : Dom) :
    (calculatePayroll cur dom).sdl
      = if flag cur.sdl_contributing then (calculatePayroll cur dom).adjustedGrossPay * num 0.01
        else num 0 := rfl

/-- Claim C7: `uif = min(adjustedGrossPay, 17712.00) * 0.01` when
`uif_contributing` is truthy and `0` otherwise; `uif` never exceeds 177.12;
for an adjusted gross pay of 25000 and a contributing employee it is 177.12. -/
theorem calculatePayroll_uif (cur : EmployeeData) (dom : Dom) :
    (calculatePayroll cur dom).uif
        = (if flag cur.uif_contributing then
            JSNum.min (calculatePayroll cur dom).adjustedGrossPay (num 17712.00) * num 0.01
          else num 0)
      ∧ JSNum.lt (num 177.12) (calculatePayroll cur dom).uif = false
      ∧ (∀ u : ℚ, (calculatePayroll cur dom).uif = num u → u ≤ 177.12)
      ∧ ((calculatePayroll cur dom).adjustedGrossPay = num 25000 →
          flag cur.uif_contributing = true → (calculatePayroll cur dom).uif = num 177.12) := by
  have hbound : ∀ u : ℚ, (calculatePayroll cur dom).uif = num u → u ≤ 177.12 := by
    intro u hu
    rw [uif_eq] at hu
    split_ifs at hu with hc
    · cases hadj : (calculatePayroll cur dom).adjustedGrossPay with
      | nan =>
        rw [hadj] at hu
        exact absurd hu (by simp [JSNum.min, HMul.hMul, Mul.mul, JSNum.mul])
      | num a =>
        rw [hadj] at hu
        simp only [JSNum.min, num_mul, JSNum.num.injEq] at hu
        have h1 : (17712.00 : ℚ) = 17712 := by norm_num
        have h2 : (0.01 : ℚ) = 1 / 100 := by norm_num
        have h3 : (177.12 : ℚ) = 17712 / 100 := by norm_num
        have hmin : Min.min a (17712 : ℚ) ≤ 17712 := min_le_right _ _
        rw [← hu, h1, h2, h3]
        linarith
    · simp only [JSNum.num.injEq] at hu
      rw [← hu]
      norm_num
  refine ⟨rfl, ?_, hbound, ?_⟩
  · cases hu : (calculatePayroll cur dom).uif with
    | nan => rfl
    | num u =>
      have := hbound u hu
      simp only [JSNum.lt, decide_eq_false_iff_not, not_lt]
      exact this
  · intro hadj hc
    rw [uif_eq, hadj]
    simp only [hc, if_true, JSNum.min, num_mul]
    norm_num

/-- Claim C7 at a contributing hourly employee paid 100 with 250 hours. -/
theorem calculatePayroll_uif_witness :
    (calculatePayroll uifHundred longMonthDom).adjustedGrossPay = num 25000
      ∧ flag uifHundred.uif_contributing = true
      ∧ (calculatePayroll uifHundred longMonthDom).uif = num 177.12 := by
  have hadj : (calculatePayroll uifHundred longMonthDom).adjustedGrossPay = num 25000 := by
    simp [calculatePayroll, uifHundred, hourlyHundred, longMonthDom, emptyDom,
      EmployeeData.initial, readInput_empty, readInput_num, toNumber, num_add, num_mul, fieldOr]
    norm_num
  exact ⟨hadj, rfl, (calculatePayroll_uif uifHundred longMonthDom).2.2.2 hadj rfl⟩

/-- Claim C8: `paye = max(adjustedGrossPay * 0.18 - medicalAidTaxCredit, 0)` when
`paye_exempt` is falsy and `paye = 0` when it is truthy, whatever the credit
and the adjusted gross pay; `paye` is never negative. -/
theorem calculatePayroll_paye (cur : EmployeeData) (dom : Dom) :
    (calculatePayroll cur dom).medicalAidTaxCredit = num (fieldOr cur.medical_aid_tax_credit 0)
      ∧ (flag cur.paye_exempt = false →
          (calculatePayroll cur dom).paye
            = JSNum.max ((calculatePayroll cur dom).adjustedGrossPay * num 0.18
                - (calculatePayroll cur dom).medicalAidTaxCredit) (num 0))
      ∧ (flag cur.paye_exempt = true → (calculatePayroll cur dom).paye = num 0)
      ∧ JSNum.lt (calculatePayroll cur dom).paye (num 0) = false := by
  refine ⟨rfl, ?_, ?_, ?_⟩
  · intro he
    rw [paye_eq]
    simp only [he, Bool.not_false, if_true]
    rfl
  · intro he
    rw [paye_eq]
    simp [he]
  · rw [paye_eq]
    split_ifs
    · cases (calculatePayroll cur dom).adjustedGrossPay * num 0.18
          - num (fieldOr cur.medical_aid_tax_credit 0) with
      | nan => rfl
      | num x => simp [JSNum.max, JSNum.lt]
    · simp [JSNum.lt]

/-- Claim C8 at an exempt employee with a credit of 364 and 250 hours at 100:
the adjusted gross pay is 25000 and PAYE is 0. -/
theorem calculatePayroll_paye_witness :
    flag exemptWithCredit.paye_exempt = true
      ∧ (calculatePayroll exemptWithCredit longMonthDom).medicalAidTaxCredit = num 364
      ∧ (calculatePayroll exemptWithCredit longMonthDom).adjustedGrossPay = num 25000
      ∧ (calculatePayroll exemptWithCredit longMonthDom).paye = num 0 := by
  refine ⟨rfl, ?_, ?_, (calculatePayroll_paye exemptWithCredit longMonthDom).2.2.1 rfl⟩
  · simp [calculatePayroll, exemptWithCredit, fieldOr]
  · simp [calculatePayroll, exemptWithCredit, hourlyHundred, longMonthDom, emptyDom,
      EmployeeData.initial, readInput_empty, readInput_num, toNumber, num_add, num_mul, fieldOr]
    norm_num

theorem sdl_pieceSdl_bonus {x : ℚ} (hx : x ≠ 0) :
    (calculatePayroll pieceSdl (bonusDom x)).sdl = num (x * 0.01) := by
  simp [calculatePayroll, pieceSdl, bonusDom, emptyDom, EmployeeData.initial, readInput_empty,
    readInput_num hx, num_add, num_mul, fieldOr, flag]

/-- Claim C9: `sdl = adjustedGrossPay * 0.01` with
`adjustedGrossPay = grossPay + fringeBenefit` when `sdl_contributing` is
truthy, and `0` otherwise; there is no ceiling: every bound is exceeded by the
SDL of some input. -/
theorem calculatePayroll_sdl :
    (∀ (cur : EmployeeData) (dom : Dom),
        (calculatePayroll cur dom).adjustedGrossPay
            = (calculatePayroll cur dom).grossPay + num (fieldOr cur.fringe_benefit_amount 0)
          ∧ (calculatePayroll cur dom).sdl
            = (if flag cur.sdl_contributing then
                (calculatePayroll cur dom).adjustedGrossPay * num 0.01
              else num 0))
      ∧ (∀ B : ℚ, ∃ (cur : EmployeeData) (dom : Dom),
          JSNum.lt (num B) (calculatePayroll cur dom).sdl = true) := by
  refine ⟨fun cur dom => ⟨rfl, rfl⟩, fun B => ⟨pieceSdl, bonusDom (100 * |B| + 100), ?_⟩⟩
  have hpos : (0 : ℚ) < 100 * |B| + 100 := by positivity
  rw [sdl_pieceSdl_bonus (ne_of_gt hpos)]
  simp only [JSNum.lt, decide_eq_true_eq]
  have hB : B ≤ |B| := le_abs_self B
  have h2 : (0.01 : ℚ) = 1 / 100 := by norm_num
  rw [h2]
  linarith

/-! ## Recurring deductions: calculated medical-aid rows -/

/-- Claim C10: for a row whose amount type reads `calculated`, whose beneficiary
type reads `medical aid` and whose value attribute holds the number `v`, the
amount is `v` for every base, hence for every gross pay; the whole breakdown
is unchanged when `medical_aid_member` and `medical_aid_dependants` are
replaced, so the result of `calculateMedicalAidDeduction` never enters it. -/
theorem calculated_medical_aid_row_amount (cur : EmployeeData) (dom : Dom) (i : ℕ)
    (row : TableRow) (v : ℚ)
    (hrow : dom.rows[i]? = some row)
    (htype : toLowerCase (rowTypeValue row).1 = "calculated")
    (hben : toLowerCase (row.beneficiaryType.getD "") = "medical aid")
    (hval : row.value = some (NumText.text (num v))) :
    (calculatePayroll cur dom).rowAmounts[i]? = some (num v)
      ∧ (∀ base : JSNum, rowAmount base row = num v)
      ∧ (∀ (m : Option Bool) (k : Option ℤ),
          calculatePayroll { cur with medical_aid_member := m, medical_aid_dependants := k } dom
            = calculatePayroll cur dom) := by
  have hamt : ∀ base : JSNum, rowAmount base row = num v := by
    intro base
    have hne : ¬ ("calculated" = "percentage") := by decide
    simp [rowAmount, htype, hben, hval, parseFloatAttrOrZero, hne]
  refine ⟨?_, hamt, fun m k => rfl⟩
  rw [rowAmounts_get cur dom i row hrow, hamt]

/-- Claim C10 at the table built from the record of a medical-aid member without
dependants: `calculateMedicalAidDeduction` gives 364 for that employee, and the
amount of the calculated medical-aid row is its value 500. -/
theorem calculated_medical_aid_row_amount_witness :
    memberDom.rows[0]? = some medicalAidRow
      ∧ toLowerCase (rowTypeValue medicalAidRow).1 = "calculated"
      ∧ toLowerCase (medicalAidRow.beneficiaryType.getD "") = "medical aid"
      ∧ calculateMedicalAidDeduction memberRecord = 364
      ∧ (calculatePayroll memberRecord memberDom).rowAmounts[0]? = some (num 500) := by
  have hrow : memberDom.rows[0]? = some medicalAidRow := by
    simp [memberDom, buildDeductionsTable, memberRecord, buildRows, medicalAidDeduction,
      activeValue, strOr, strTruthy, valueAttr, medicalAidRow]
  have ht : toLowerCase (rowTypeValue medicalAidRow).1 = "calculated" := by
    simp [rowTypeValue, medicalAidRow, strTruthy, toLowerCase]
  have hb : toLowerCase (medicalAidRow.beneficiaryType.getD "") = "medical aid" := by
    simp [medicalAidRow, toLowerCase]
  exact ⟨hrow, ht, hb, by simp [calculateMedicalAidDeduction, memberRecord, flag],
    (calculated_medical_aid_row_amount memberRecord memberDom 0 medicalAidRow 500 hrow ht hb
      rfl).1⟩

/-! ## Recomputation and the derived rates -/

theorem fieldOr_ne_zero (x : Option ℚ) {d : ℚ} (hd : d ≠ 0) : fieldOr x d ≠ 0 := by
  unfold fieldOr
  split
  · split_ifs with h0
    · exact hd
    · exact h0
  · exact hd

theorem fieldOr_pos (x : Option ℚ) {d : ℚ} (hd : 0 < d) (hx : ∀ q, x = some q → 0 ≤ q) :
    0 < fieldOr x d := by
  unfold fieldOr
  split
  · rename_i q
    split_ifs with h0
    · exact hd
    · exact lt_of_le_of_ne (hx q rfl) (Ne.symm h0)
  · exact hd

theorem fieldOr_some {q d : ℚ} (h : q ≠ 0) : fieldOr (some q) d = q := by
  simp [fieldOr, h]

theorem deriveRates_workHours (data : EmployeeData) (st : String) :
    (deriveRates data st).workHours
      = num (fieldOr data.ordinary_hours_per_day 8 * fieldOr data.work_days_per_month 22) := by
  unfold deriveRates
  split_ifs <;> rfl

theorem workHours_product_ne_zero (data : EmployeeData) :
    fieldOr data.ordinary_hours_per_day 8 * fieldOr data.work_days_per_month 22 ≠ 0 :=
  mul_ne_zero (fieldOr_ne_zero _ (by norm_num)) (fieldOr_ne_zero _ (by norm_num))

theorem orElse_num {q : ℚ} (h : q ≠ 0) (d : JSNum) : (num q).orElse d = num q := by
  simp [JSNum.orElse, JSNum.truthy, h]

theorem monthly_hourlyRate_eq (cur : EmployeeData) (dom : Dom)
    (h : cur.salary_type = some "monthly") :
    (calculatePayroll cur dom).hourlyRate
      = parseFloatField cur.salary / calculatePayroll.workHours cur := by
  simp [calculatePayroll, calculatePayroll.workHours, h]

theorem daily_hourlyRate_eq (cur : EmployeeData) (dom : Dom)
    (h : cur.salary_type = some "daily") :
    (calculatePayroll cur dom).hourlyRate
      = parseFloatField cur.salary / num (fieldOr cur.ordinary_hours_per_day 8) := by
  simp [calculatePayroll, h]

theorem other_hourlyRate_eq (cur : EmployeeData) (dom : Dom)
    (hm : cur.salary_type ≠ some "monthly") (hd : cur.salary_type ≠ some "daily") :
    (calculatePayroll cur dom).hourlyRate = toNumber cur.hourly_rate := by
  simp [calculatePayroll, hm, hd]

/-- After `populatePayrollModal` received a record with a `salary_type`, the
`workHours` that line 310 reads is the stored `work_hours`. -/
theorem workHours_stored (data : EmployeeData) (page : Page) (st : String)
    (h : data.salary_type = some st) :
    calculatePayroll.workHours (populatePayrollModal (some data) page).1.currentEmployeeData
      = (deriveRates data st).workHours := by
  obtain ⟨-, -, -, -, -, -, hwh⟩ := populatePayrollModal_stored data page st h
  unfold calculatePayroll.workHours
  rw [hwh, deriveRates_workHours]
  simp only [toNumber]
  exact orElse_num (workHours_product_ne_zero data) _

/-- After `populatePayrollModal` received a record with a `salary_type`, the
`hourlyRate` of every `calculatePayroll` run is the derived one. -/
theorem hourlyRate_stored (data : EmployeeData) (page : Page) (st : String) (dom : Dom)
    (h : data.salary_type = some st) :
    (calculatePayroll (populatePayrollModal (some data) page).1.currentEmployeeData dom).hourlyRate
      = (deriveRates data st).hourlyRate := by
  obtain ⟨hst, hsal, -, hohpd, -, hrate, -⟩ := populatePayrollModal_stored data page st h
  by_cases hm : st = "monthly"
  · subst hm
    rw [monthly_hourlyRate_eq _ _ hst, workHours_stored data page "monthly" h, hsal]
    simp [deriveRates]
  · by_cases hd : st = "daily"
    · subst hd
      rw [daily_hourlyRate_eq _ _ hst, hsal, hohpd]
      simp [deriveRates]
    · rw [other_hourlyRate_eq _ _ (by rw [hst]; simpa using hm)
        (by rw [hst]; simpa using hd), hrate]
      rfl

/-- Claim C12: `populatePayrollModal` derives
`workHours = (ordinary_hours_per_day || 8) * (work_days_per_month || 22)`, so
8 and 22 stand in for absent fields; `hourlyRate` is the salary for hourly,
`salary / (ordinary_hours_per_day || 8)` for daily and `salary / workHours` for
monthly; `baseSalary` is `hourlyRate` for hourly and the salary for daily; the
two derived values are stored as `hourly_rate` and `work_hours`. -/
theorem populatePayrollModal_rates (data : EmployeeData) (page : Page) (st : String)
    (h : data.salary_type = some st) :
    (deriveRates data st).workHours
        = num (fieldOr data.ordinary_hours_per_day 8 * fieldOr data.work_days_per_month 22)
      ∧ (data.ordinary_hours_per_day = none → data.work_days_per_month = none →
          (deriveRates data st).workHours = num (8 * 22))
      ∧ (∀ a b : ℚ, data.ordinary_hours_per_day = some a → data.work_days_per_month = some b →
          a ≠ 0 → b ≠ 0 → (deriveRates data st).workHours = num (a * b))
      ∧ (st = "hourly" →
          (deriveRates data st).hourlyRate = parseFloatField data.salary
            ∧ (deriveRates data st).baseSalary = (deriveRates data st).hourlyRate)
      ∧ (st = "daily" →
          (deriveRates data st).hourlyRate
              = parseFloatField data.salary / num (fieldOr data.ordinary_hours_per_day 8)
            ∧ (deriveRates data st).baseSalary = parseFloatField data.salary)
      ∧ (st = "monthly" →
          (deriveRates data st).hourlyRate
            = parseFloatField data.salary / (deriveRates data st).workHours)
      ∧ (populatePayrollModal (some data) page).1.currentEmployeeData.hourly_rate
          = some (deriveRates data st).hourlyRate
      ∧ (populatePayrollModal (some data) page).1.currentEmployeeData.work_hours
          = some (deriveRates data st).workHours := by
  obtain ⟨-, -, -, -, -, hrate, hwh⟩ := populatePayrollModal_stored data page st h
  refine ⟨deriveRates_workHours data st, ?_, ?_, ?_, ?_, ?_, hrate, hwh⟩
  · intro ha hb
    rw [deriveRates_workHours, ha, hb]
    rfl
  · intro a b ha hb ha0 hb0
    rw [deriveRates_workHours, ha, hb, fieldOr_some ha0, fieldOr_some hb0]
  · intro hs
    subst hs
    simp [deriveRates]
  · intro hs
    subst hs
    simp [deriveRates]
  · intro hs
    subst hs
    simp [deriveRates]

/-- Claim C12 at a monthly record with salary 17600 and no hours fields: the
work hours are `8 * 22` and the hourly rate is the salary divided by them. -/
theorem populatePayrollModal_rates_witness :
    monthlyRecord.salary_type = some "monthly"
      ∧ (deriveRates monthlyRecord "monthly").workHours = num (8 * 22)
      ∧ (deriveRates monthlyRecord "monthly").hourlyRate
          = parseFloatField monthlyRecord.salary / (deriveRates monthlyRecord "monthly").workHours
      ∧ (populatePayrollModal (some monthlyRecord) blankPage).1.currentEmployeeData.hourly_rate
          = some (deriveRates monthlyRecord "monthly").hourlyRate :=
  ⟨rfl, (populatePayrollModal_rates monthlyRecord blankPage "monthly" rfl).2.1 rfl rfl,
    (populatePayrollModal_rates monthlyRecord blankPage "monthly" rfl).2.2.2.2.2.1 rfl,
    (populatePayrollModal_rates monthlyRecord blankPage "monthly" rfl).2.2.2.2.2.2.1⟩

/-- Claim C13: after `populatePayrollModal` received a record with a
`salary_type`, the `hourlyRate` of every `calculatePayroll` run is the stored
`hourly_rate`, the one derived when the record was loaded, and the `workHours`
of line 310 is the stored `work_hours`; for monthly the rate is the salary
divided by that `workHours`; a run does not change `currentEmployeeData`. -/
theorem calculatePayroll_uses_stored_rates (data : EmployeeData) (page : Page) (st : String)
    (dom : Dom) (h : data.salary_type = some st) :
    (calculatePayroll (populatePayrollModal (some data) page).1.currentEmployeeData dom).hourlyRate
        = toNumber (populatePayrollModal (some data) page).1.currentEmployeeData.hourly_rate
      ∧ (populatePayrollModal (some data) page).1.currentEmployeeData.hourly_rate
          = some (deriveRates data st).hourlyRate
      ∧ calculatePayroll.workHours (populatePayrollModal (some data) page).1.currentEmployeeData
          = toNumber (populatePayrollModal (some data) page).1.currentEmployeeData.work_hours
      ∧ (populatePayrollModal (some data) page).1.currentEmployeeData.work_hours
          = some (deriveRates data st).workHours
      ∧ (st = "monthly" →
          (calculatePayroll (populatePayrollModal (some data) page).1.currentEmployeeData
              dom).hourlyRate
            = parseFloatField data.salary / (deriveRates data st).workHours)
      ∧ (populatePayrollModal (some data) page).1.calculatePayroll.currentEmployeeData
          = (populatePayrollModal (some data) page).1.currentEmployeeData := by
  obtain ⟨hst, hsal, -, -, -, hrate, hwh⟩ := populatePayrollModal_stored data page st h
  refine ⟨?_, hrate, ?_, hwh, ?_, rfl⟩
  · rw [hourlyRate_stored data page st dom h, hrate]
    rfl
  · rw [workHours_stored data page st h, hwh]
    rfl
  · intro hs
    subst hs
    rw [monthly_hourlyRate_eq _ _ hst, workHours_stored data page "monthly" h, hsal]

/-- Claim C13 at a monthly record with salary 17600 loaded into a blank page. -/
theorem calculatePayroll_uses_stored_rates_witness :
    monthlyRecord.salary_type = some "monthly"
      ∧ (calculatePayroll (populatePayrollModal (some monthlyRecord) blankPage).1.currentEmployeeData
            emptyDom).hourlyRate
          = toNumber (populatePayrollModal (some monthlyRecord) blankPage).1.currentEmployeeData.hourly_rate
      ∧ (calculatePayroll (populatePayrollModal (some monthlyRecord) blankPage).1.currentEmployeeData
            emptyDom).hourlyRate
          = parseFloatField monthlyRecord.salary / (deriveRates monthlyRecord "monthly").workHours :=
  ⟨rfl, (calculatePayroll_uses_stored_rates monthlyRecord blankPage "monthly" emptyDom rfl).1,
    (calculatePayroll_uses_stored_rates monthlyRecord blankPage "monthly" emptyDom rfl).2.2.2.2.1
      rfl⟩

/-! ## Premium pay and `overtime_eligible` -/

theorem calculatePayroll_premium (cur : EmployeeData) (dom : Dom)
    (hm : cur.salary_type ≠ some "monthly") (hp : cur.salary_type ≠ some "piece") :
    (calculatePayroll cur dom).overtimePay
        = readInput dom.overtime_hours * (calculatePayroll cur dom).hourlyRate * num 1.5
      ∧ (calculatePayroll cur dom).sundayPay
        = readInput dom.sunday_hours * (calculatePayroll cur dom).hourlyRate * num 2.0
      ∧ (calculatePayroll cur dom).publicHolidayPay
        = readInput dom.public_holiday_hours * (calculatePayroll cur dom).hourlyRate * num 2.0 := by
  simp [calculatePayroll, hm, hp]

/-- Claim C14 fails: an hourly record paid 100 with `overtime_eligible` false, loaded
by `populatePayrollModal`, gets an overtime pay of 1500 for 10 overtime hours. -/
theorem overtime_paid_when_ineligible :
    ineligibleRecord.salary_type = some "hourly"
      ∧ (populatePayrollModal (some ineligibleRecord) blankPage).1.currentEmployeeData.overtime_eligible
          = some false
      ∧ (calculatePayroll (populatePayrollModal (some ineligibleRecord) blankPage).1.currentEmployeeData
            overtimeDom).overtimePay = num 1500
      ∧ (calculatePayroll (populatePayrollModal (some ineligibleRecord) blankPage).1.currentEmployeeData
            overtimeDom).overtimePay ≠ num 0 := by
  obtain ⟨hst, -, -, -, -, hrate, -⟩ :=
    populatePayrollModal_stored ineligibleRecord blankPage "hourly" rfl
  have hpay : (calculatePayroll
      (populatePayrollModal (some ineligibleRecord) blankPage).1.currentEmployeeData
      overtimeDom).overtimePay = num 1500 := by
    rw [(calculatePayroll_hourly _ overtimeDom hst).2.2.1, hrate]
    have hr : (deriveRates ineligibleRecord "hourly").hourlyRate = num 100 := by
      simp [deriveRates, ineligibleRecord, parseFloatField]
    have hi : readInput overtimeDom.overtime_hours = num 10 := readInput_num (by norm_num)
    rw [hr, hi]
    simp only [toNumber, num_mul]
    norm_num
  refine ⟨rfl, ?_, hpay, ?_⟩
  · simp only [populatePayrollModal, ineligibleRecord, EmployeeData.initial]
    split_ifs <;> rfl
  · rw [hpay]
    simp

/-- Claim C14 as amended: for an hourly or daily employee the premium pays are
`overtimeHours * hourlyRate * 1.5`, `sundayHours * hourlyRate * 2.0` and
`publicHolidayHours * hourlyRate * 2.0` whatever `overtime_eligible` is; the
breakdown is the same for every value of the flag. -/
theorem calculatePayroll_premium_ignores_eligibility (cur : EmployeeData) (dom : Dom)
    (h : cur.salary_type = some "hourly" ∨ cur.salary_type = some "daily") :
    (calculatePayroll cur dom).overtimePay
        = readInput dom.overtime_hours * (calculatePayroll cur dom).hourlyRate * num 1.5
      ∧ (calculatePayroll cur dom).sundayPay
        = readInput dom.sunday_hours * (calculatePayroll cur dom).hourlyRate * num 2.0
      ∧ (calculatePayroll cur dom).publicHolidayPay
        = readInput dom.public_holiday_hours * (calculatePayroll cur dom).hourlyRate * num 2.0
      ∧ ∀ oe : Option Bool,
          calculatePayroll { cur with overtime_eligible := oe } dom = calculatePayroll cur dom := by
  have hm : cur.salary_type ≠ some "monthly" := by
    rcases h with h | h <;> rw [h] <;> decide
  have hp : cur.salary_type ≠ some "piece" := by
    rcases h with h | h <;> rw [h] <;> decide
  obtain ⟨h1, h2, h3⟩ := calculatePayroll_premium cur dom hm hp
  exact ⟨h1, h2, h3, fun oe => rfl⟩

/-- Claim C14 as amended, at a loaded hourly employee with `overtime_eligible`
false and 10 overtime hours. -/
theorem calculatePayroll_premium_ignores_eligibility_witness :
    ineligibleHourly.salary_type = some "hourly"
      ∧ ineligibleHourly.overtime_eligible = some false
      ∧ (calculatePayroll ineligibleHourly overtimeDom).overtimePay
          = readInput overtimeDom.overtime_hours
            * (calculatePayroll ineligibleHourly overtimeDom).hourlyRate * num 1.5
      ∧ calculatePayroll { ineligibleHourly with overtime_eligible := some true } overtimeDom
          = calculatePayroll ineligibleHourly overtimeDom :=
  ⟨rfl, rfl,
    (calculatePayroll_premium_ignores_eligibility ineligibleHourly overtimeDom (Or.inl rfl)).1,
    (calculatePayroll_premium_ignores_eligibility ineligibleHourly overtimeDom
      (Or.inl rfl)).2.2.2 (some true)⟩

/-! ## Divisors of the hourly rate -/

theorem workHours_used_ne_zero (cur : EmployeeData) :
    ∃ d : ℚ, calculatePayroll.workHours cur = num d ∧ d ≠ 0 := by
  have hprod := workHours_product_ne_zero cur
  unfold calculatePayroll.workHours
  rw [num_mul]
  cases hw : toNumber cur.work_hours with
  | nan => exact ⟨_, by simp [JSNum.orElse, JSNum.truthy], hprod⟩
  | num q =>
    by_cases hq : q = 0
    · exact ⟨_, by simp [JSNum.orElse, JSNum.truthy, hq], hprod⟩
    · exact ⟨q, orElse_num hq _, hq⟩

theorem deriveRates_hourlyRate_finite (data : EmployeeData) (st : String) (s : ℚ)
    (hs : data.salary = some s) : ∃ r : ℚ, (deriveRates data st).hourlyRate = num r := by
  have hprod := workHours_product_ne_zero data
  have hday : fieldOr data.ordinary_hours_per_day 8 ≠ 0 := fieldOr_ne_zero _ (by norm_num)
  unfold deriveRates
  split_ifs
  · exact ⟨s, by simp [hs, parseFloatField]⟩
  · exact ⟨s / fieldOr data.ordinary_hours_per_day 8, by
      simp only [hs, parseFloatField]
      exact num_div hday⟩
  · exact ⟨s / (fieldOr data.ordinary_hours_per_day 8 * fieldOr data.work_days_per_month 22), by
      simp only [hs, parseFloatField, num_mul]
      exact num_div hprod⟩

/-- Claim C15: the divisors used to derive `hourlyRate` are never zero, in
`populatePayrollModal` (`workHours`, and `ordinary_hours_per_day || 8` for
daily) and in `calculatePayroll` (the `workHours` of line 310 for any
`currentEmployeeData`, and `ordinary_hours_per_day || 8`), because 8 and 22
replace an absent or zero field; they are strictly positive when the given
fields are non-negative; with a salary present the derived rate is finite. -/
theorem hourlyRate_divisors_nonzero (data : EmployeeData) (page : Page) (st : String)
    (cur : EmployeeData) (h : data.salary_type = some st) :
    (fieldOr none 8 = 8 ∧ fieldOr (some 0) 8 = 8 ∧ fieldOr none 22 = 22 ∧ fieldOr (some 0) 22 = 22)
      ∧ (∃ d : ℚ, (deriveRates data st).workHours = num d ∧ d ≠ 0
          ∧ ((∀ q, data.ordinary_hours_per_day = some q → 0 ≤ q) →
              (∀ q, data.work_days_per_month = some q → 0 ≤ q) → 0 < d))
      ∧ (fieldOr data.ordinary_hours_per_day 8 ≠ 0
          ∧ ((∀ q, data.ordinary_hours_per_day = some q → 0 ≤ q) →
              0 < fieldOr data.ordinary_hours_per_day 8))
      ∧ (∃ d : ℚ, calculatePayroll.workHours cur = num d ∧ d ≠ 0)
      ∧ fieldOr cur.ordinary_hours_per_day 8 ≠ 0
      ∧ (∃ d : ℚ,
          calculatePayroll.workHours (populatePayrollModal (some data) page).1.currentEmployeeData
              = num d
            ∧ d ≠ 0
            ∧ ((∀ q, data.ordinary_hours_per_day = some q → 0 ≤ q) →
                (∀ q, data.work_days_per_month = some q → 0 ≤ q) → 0 < d))
      ∧ (∀ s : ℚ, data.salary = some s → ∃ r : ℚ, (deriveRates data st).hourlyRate = num r) := by
  have hpos : (∀ q, data.ordinary_hours_per_day = some q → 0 ≤ q) →
      (∀ q, data.work_days_per_month = some q → 0 ≤ q) →
      0 < fieldOr data.ordinary_hours_per_day 8 * fieldOr data.work_days_per_month 22 :=
    fun h1 h2 => mul_pos (fieldOr_pos _ (by norm_num) h1) (fieldOr_pos _ (by norm_num) h2)
  refine ⟨⟨rfl, by simp [fieldOr], rfl, by simp [fieldOr]⟩,
    ⟨_, deriveRates_workHours data st, workHours_product_ne_zero data, hpos⟩,
    ⟨fieldOr_ne_zero _ (by norm_num), fun h1 => fieldOr_pos _ (by norm_num) h1⟩,
    workHours_used_ne_zero cur, fieldOr_ne_zero _ (by norm_num),
    ⟨_, ?_, workHours_product_ne_zero data, hpos⟩,
    fun s hs => deriveRates_hourlyRate_finite data st s hs⟩
  rw [workHours_stored data page st h, deriveRates_workHours]

/-- Claim C15 at a monthly record with salary 17600 and no hours fields: the
stored work hours are a non-zero number and the derived rate is finite. -/
theorem hourlyRate_divisors_nonzero_witness :
    monthlyRecord.salary_type = some "monthly"
      ∧ (∃ d : ℚ, (deriveRates monthlyRecord "monthly").workHours = num d ∧ d ≠ 0
          ∧ ((∀ q, monthlyRecord.ordinary_hours_per_day = some q → 0 ≤ q) →
              (∀ q, monthlyRecord.work_days_per_month = some q → 0 ≤ q) → 0 < d))
      ∧ (∃ r : ℚ, (deriveRates monthlyRecord "monthly").hourlyRate = num r) :=
  ⟨rfl, (hourlyRate_divisors_nonzero monthlyRecord blankPage "monthly" monthlyBlank rfl).2.1,
    (hourlyRate_divisors_nonzero monthlyRecord blankPage "monthly" monthlyBlank rfl).2.2.2.2.2.2
      17600 rfl⟩

/-! ## Ordinary pay of monthly and piece employees -/

/-- For a monthly `currentEmployeeData`, ordinary pay is
`parseFloat(monthly_salary || salary)`, whatever is entered as ordinary hours;
when `monthly_salary` is a non-zero number it is that number, which is also
the `baseSalary` derived when the record was loaded. -/
theorem monthly_ordinaryPay_eq (cur : EmployeeData) (dom : Dom)
    (h : cur.salary_type = some "monthly") :
    (calculatePayroll cur dom).ordinaryPay
        = parseFloatField (orField cur.monthly_salary cur.salary)
      ∧ (∀ t : NumText,
          (calculatePayroll cur { dom with ordinary_hours := t }).ordinaryPay
            = (calculatePayroll cur dom).ordinaryPay)
      ∧ (∀ m : ℚ, cur.monthly_salary = some m → m ≠ 0 →
          (calculatePayroll cur dom).ordinaryPay = num m
            ∧ (deriveRates cur "monthly").baseSalary = num m) := by
  refine ⟨by simp [calculatePayroll, h], fun t => by simp [calculatePayroll, h], ?_⟩
  intro m hm hne
  constructor
  · simp [calculatePayroll, h, hm, orField, hne, parseFloatField]
  · simp [deriveRates, hm, parseFloatField]

/-- Claim C16 fails at a monthly record with salary 17600 and no `monthly_salary`:
`populatePayrollModal` derives the `baseSalary` `NaN`, while every
`calculatePayroll` run on the loaded record gives the ordinary pay 17600. -/
theorem monthly_baseSalary_differs_from_ordinaryPay :
    monthlyRecord.salary_type = some "monthly"
      ∧ (deriveRates monthlyRecord "monthly").baseSalary = nan
      ∧ (∀ dom : Dom,
          (calculatePayroll (populatePayrollModal (some monthlyRecord) blankPage).1.currentEmployeeData
              dom).ordinaryPay = num 17600)
      ∧ (deriveRates monthlyRecord "monthly").baseSalary
          ≠ (calculatePayroll (populatePayrollModal (some monthlyRecord) blankPage).1.currentEmployeeData
              emptyDom).ordinaryPay := by
  obtain ⟨hst, hsal, hms, -, -, -, -⟩ :=
    populatePayrollModal_stored monthlyRecord blankPage "monthly" rfl
  have hbase : (deriveRates monthlyRecord "monthly").baseSalary = nan := by
    simp [deriveRates, monthlyRecord, EmployeeData.initial, parseFloatField]
  have hord : ∀ dom : Dom,
      (calculatePayroll (populatePayrollModal (some monthlyRecord) blankPage).1.currentEmployeeData
        dom).ordinaryPay = num 17600 := by
    intro dom
    rw [(monthly_ordinaryPay_eq _ dom hst).1, hsal, hms]
    simp [monthlyRecord, EmployeeData.initial, orField, parseFloatField]
  refine ⟨rfl, hbase, hord, ?_⟩
  rw [hbase, hord emptyDom]
  simp

theorem premium_zero_of_monthly_or_piece (cur : EmployeeData) (dom : Dom)
    (h : cur.salary_type = some "monthly" ∨ cur.salary_type = some "piece") :
    (calculatePayroll cur dom).overtimePay = num 0
      ∧ (calculatePayroll cur dom).sundayPay = num 0
      ∧ (calculatePayroll cur dom).publicHolidayPay = num 0 := by
  rcases h with h | h <;> simp [calculatePayroll, h]

theorem readInput_finite (t : NumText) : ∃ q : ℚ, readInput t = num q := by
  unfold readInput JSNum.orElse
  split_ifs with h
  · cases hp : parseFloat t with
    | nan => simp [hp, JSNum.truthy] at h
    | num q => exact ⟨q, rfl⟩
  · exact ⟨0, rfl⟩

theorem add_num_zero (x : JSNum) (hx : ∃ q : ℚ, x = num q) : x + num 0 = x := by
  obtain ⟨q, rfl⟩ := hx
  rw [num_add, add_zero]

theorem populatePayrollModal_stored_piece (data : EmployeeData) (page : Page)
    (h : data.salary_type = some "piece") :
    (populatePayrollModal (some data) page).1.currentEmployeeData.salary_type = some "piece"
      ∧ (populatePayrollModal (some data) page).1.currentEmployeeData.piece_rate
          = some (fieldOr data.piece_rate 0) := by
  simp only [populatePayrollModal, h]
  split_ifs <;> simp

theorem fieldOr_zero_idem (x : Option ℚ) : fieldOr (some (fieldOr x 0)) 0 = fieldOr x 0 := by
  cases x with
  | none => simp [fieldOr]
  | some q => by_cases hq : q = 0 <;> simp [fieldOr, hq]

/-- Claim C17: for a piece employee `ordinaryPay = piecesProduced * pieceRate`
with `pieceRate = piece_rate || 0`, also after `populatePayrollModal` stored
the rate of the record; `grossPay = ordinaryPay + allowances + bonusAmount`,
unchanged by the four hours entries, the salary and the stored rates. -/
theorem calculatePayroll_piece (cur : EmployeeData) (dom : Dom)
    (h : cur.salary_type = some "piece") :
    (calculatePayroll cur dom).ordinaryPay
        = readInput dom.pieces_produced * num (fieldOr cur.piece_rate 0)
      ∧ (cur.piece_rate = none →
          (calculatePayroll cur dom).ordinaryPay = readInput dom.pieces_produced * num 0)
      ∧ (calculatePayroll cur dom).grossPay
          = readInput dom.pieces_produced * num (fieldOr cur.piece_rate 0)
            + readInput dom.allowances + readInput dom.bonus_amount
      ∧ (∀ (oh ot su ph : NumText) (s : Option ℚ) (hr wh : Option JSNum),
          (calculatePayroll { cur with salary := s, hourly_rate := hr, work_hours := wh }
              { dom with ordinary_hours := oh, overtime_hours := ot, sunday_hours := su,
                         public_holiday_hours := ph }).grossPay
            = (calculatePayroll cur dom).grossPay)
      ∧ (∀ (data : EmployeeData) (page : Page), data.salary_type = some "piece" →
          (calculatePayroll (populatePayrollModal (some data) page).1.currentEmployeeData
              dom).ordinaryPay
            = readInput dom.pieces_produced * num (fieldOr data.piece_rate 0)) := by
  have hord : ∀ (c : EmployeeData) (d : Dom), c.salary_type = some "piece" →
      (calculatePayroll c d).ordinaryPay
        = readInput d.pieces_produced * num (fieldOr c.piece_rate 0) := by
    intro c d hc
    simp [calculatePayroll, hc]
  have hfin : ∃ q : ℚ, readInput dom.pieces_produced * num (fieldOr cur.piece_rate 0) = num q := by
    obtain ⟨q, hq⟩ := readInput_finite dom.pieces_produced
    exact ⟨q * fieldOr cur.piece_rate 0, by rw [hq, num_mul]⟩
  have hprem := premium_zero_of_monthly_or_piece cur dom (Or.inr h)
  refine ⟨hord cur dom h, ?_, ?_, ?_, ?_⟩
  · intro hn
    rw [hord cur dom h, hn]
    rfl
  · rw [grossPay_eq, hprem.1, hprem.2.1, hprem.2.2, hord cur dom h,
      add_num_zero _ hfin, add_num_zero _ hfin, add_num_zero _ hfin]
  · intro oh ot su ph s hr wh
    simp [calculatePayroll, h]
  · intro data page hd
    obtain ⟨hst, hpr⟩ := populatePayrollModal_stored_piece data page hd
    rw [hord _ dom hst, hpr, fieldOr_zero_idem]

/-- Claim C17 at a piece-work employee paid 2.5 per piece with 100 pieces. -/
theorem calculatePayroll_piece_witness :
    pieceWorker.salary_type = some "piece"
      ∧ (calculatePayroll pieceWorker piecesDom).ordinaryPay
          = readInput piecesDom.pieces_produced * num (fieldOr pieceWorker.piece_rate 0)
      ∧ (calculatePayroll pieceWorker piecesDom).grossPay
          = readInput piecesDom.pieces_produced * num (fieldOr pieceWorker.piece_rate 0)
            + readInput piecesDom.allowances + readInput piecesDom.bonus_amount :=
  ⟨rfl, (calculatePayroll_piece pieceWorker piecesDom rfl).1,
    (calculatePayroll_piece pieceWorker piecesDom rfl).2.2.1⟩

/-! ## Rows with an unrecognised amount type -/

/-- A row whose `data-amount-type` is a non-empty string that reads neither
`percentage` nor `calculated` gets its `data-value` as amount, and a row
without the attribute whose select reads neither gets the number in its value
input: both are treated as fixed. -/
theorem unrecognised_row_amount (base : JSNum) (row : TableRow) (t : String)
    (hp : toLowerCase t ≠ "percentage") (hc : toLowerCase t ≠ "calculated") :
    (row.amountType = some t → t ≠ "" → rowAmount base row = parseFloatAttr row.value)
      ∧ (row.amountType = none → row.typeSelect = some t →
          ∀ v : NumText, row.valueInput = some v → rowAmount base row = parseFloat v) := by
  constructor
  · intro ht hne
    simp [rowAmount, rowTypeValue, ht, strTruthy, hne, hp, hc]
  · intro hn hsel v hv
    simp [rowAmount, rowTypeValue, hn, hsel, hv, hp, hc]

/-- Claim C18 fails at an active recurring deduction of 250 whose `amount_type` is
the empty string: `buildDeductionsTable` creates its row, the row reads as
type `Fixed` with value `0`, and the preview shown by `populatePayrollModal`
has the row amount `0` and the recurring total `0`. -/
theorem empty_amount_type_row_contributes_zero :
    buildDeductionsTable untypedRecord = ([untypedRow], true)
      ∧ rowTypeValue untypedRow = ("Fixed", num 0)
      ∧ (∀ base : JSNum, rowAmount base untypedRow = num 0)
      ∧ (populatePayrollModal (some untypedRecord) blankPage).2 = true
      ∧ (populatePayrollModal (some untypedRecord) blankPage).1.dom.rows = [untypedRow]
      ∧ Option.map Breakdown.rowAmounts
            (populatePayrollModal (some untypedRecord) blankPage).1.preview = some [num 0]
      ∧ Option.map Breakdown.recurringTotal
            (populatePayrollModal (some untypedRecord) blankPage).1.preview = some (num 0) := by
  have hbuild : buildRows [untypedDeduction] = ([untypedRow], true) := by
    simp [buildRows, untypedDeduction, activeValue, strOr, strTruthy, valueAttr, untypedRow]
  have htv : rowTypeValue untypedRow = ("Fixed", num 0) := by
    simp [rowTypeValue, untypedRow, strTruthy]
  have hamt : ∀ base : JSNum, rowAmount base untypedRow = num 0 := by
    intro base
    simp [rowAmount, htv, toLowerCase]
  have hcfg : configListThrows [untypedDeduction] = false := by
    simp [configListThrows, untypedDeduction]
  refine ⟨by simp [buildDeductionsTable, untypedRecord, hbuild], htv, hamt, ?_, ?_, ?_, ?_⟩
  · simp [populatePayrollModal, untypedRecord, hourlyRecord, EmployeeData.initial, hcfg,
      buildDeductionsTable, hbuild]
  · simp [populatePayrollModal, untypedRecord, hourlyRecord, EmployeeData.initial, hcfg,
      buildDeductionsTable, hbuild]
  · simp [populatePayrollModal, untypedRecord, hourlyRecord, EmployeeData.initial, hcfg,
      buildDeductionsTable, hbuild, calculatePayroll, calculateRecurringDeductions, hamt]
  · simp [populatePayrollModal, untypedRecord, hourlyRecord, EmployeeData.initial, hcfg,
      buildDeductionsTable, hbuild, calculatePayroll, calculateRecurringDeductions, hamt, num_add]

/-! ## Absent fields -/

/-- Claim C19 as amended: an absent `piece_rate`, `medical_aid_tax_credit` or
`fringe_benefit_amount` gives the same breakdown as the value `0`, and an
absent `uif_contributing`, `sdl_contributing` or `paye_exempt` the same as
`false`. -/
theorem calculatePayroll_absent_as_zero (cur : EmployeeData) (dom : Dom) :
    calculatePayroll { cur with piece_rate := none } dom
        = calculatePayroll { cur with piece_rate := some 0 } dom
      ∧ calculatePayroll { cur with medical_aid_tax_credit := none } dom
        = calculatePayroll { cur with medical_aid_tax_credit := some 0 } dom
      ∧ calculatePayroll { cur with fringe_benefit_amount := none } dom
        = calculatePayroll { cur with fringe_benefit_amount := some 0 } dom
      ∧ calculatePayroll { cur with uif_contributing := none } dom
        = calculatePayroll { cur with uif_contributing := some false } dom
      ∧ calculatePayroll { cur with sdl_contributing := none } dom
        = calculatePayroll { cur with sdl_contributing := some false } dom
      ∧ calculatePayroll { cur with paye_exempt := none } dom
        = calculatePayroll { cur with paye_exempt := some false } dom := by
  refine ⟨?_, ?_, ?_, ?_, ?_, ?_⟩ <;> simp [calculatePayroll, fieldOr, flag]

theorem daily_ordinaryPay_eq (cur : EmployeeData) (dom : Dom)
    (h : cur.salary_type = some "daily") :
    (calculatePayroll cur dom).ordinaryPay
      = readInput dom.ordinary_hours * parseFloatField cur.salary := by
  simp [calculatePayroll, h]

theorem netPay_eq (cur : EmployeeData) (dom : Dom) :
    (calculatePayroll cur dom).netPay
      = (calculatePayroll cur dom).grossPay - (calculatePayroll cur dom).totalDeductions := rfl

theorem totalDeductions_eq (cur : EmployeeData) (dom : Dom) :
    (calculatePayroll cur dom).totalDeductions
      = (calculatePayroll cur dom).paye + (calculatePayroll cur dom).uif
        + (calculatePayroll cur dom).sdl + (calculatePayroll cur dom).recurringTotal := rfl

theorem nan_add (x : JSNum) : nan + x = nan := rfl

theorem nan_sub (x : JSNum) : nan - x = nan := rfl

/-- Claim C19 fails for `salary`: for a daily record without `salary`, loaded by
`populatePayrollModal`, with 20 entered as ordinary hours, ordinary pay, gross
pay and net pay are `NaN`; for the same record with salary `0` they are `0`. -/
theorem absent_salary_is_not_zero :
    (calculatePayroll (populatePayrollModal (some dailyNoSalary) blankPage).1.currentEmployeeData
          twentyDom).ordinaryPay = nan
      ∧ (calculatePayroll (populatePayrollModal (some dailyNoSalary) blankPage).1.currentEmployeeData
          twentyDom).grossPay = nan
      ∧ (calculatePayroll (populatePayrollModal (some dailyNoSalary) blankPage).1.currentEmployeeData
          twentyDom).netPay = nan
      ∧ (calculatePayroll (populatePayrollModal (some dailyZeroSalary) blankPage).1.currentEmployeeData
          twentyDom).ordinaryPay = num 0
      ∧ (calculatePayroll (populatePayrollModal (some dailyZeroSalary) blankPage).1.currentEmployeeData
          twentyDom).grossPay = num 0
      ∧ (calculatePayroll (populatePayrollModal (some dailyZeroSalary) blankPage).1.currentEmployeeData
          twentyDom).netPay = num 0 := by
  have hcurN : (populatePayrollModal (some dailyNoSalary) blankPage).1.currentEmployeeData
      = { dailyNoSalary with
          fringe_benefit_amount := some 0,
          hourly_rate := some nan, work_hours := some (num (8 * 22)) } := by
    simp [populatePayrollModal, dailyNoSalary, EmployeeData.initial, configListThrows,
      buildDeductionsTable, deriveRates, fieldOr, parseFloatField, num_mul]
    rfl
  have hcurZ : (populatePayrollModal (some dailyZeroSalary) blankPage).1.currentEmployeeData
      = { dailyZeroSalary with
          fringe_benefit_amount := some 0,
          hourly_rate := some (num 0), work_hours := some (num (8 * 22)) } := by
    simp [populatePayrollModal, dailyZeroSalary, dailyNoSalary, EmployeeData.initial,
      configListThrows, buildDeductionsTable, deriveRates, fieldOr, parseFloatField, num_mul,
      num_div]
  have h20 : readInput twentyDom.ordinary_hours = num 20 := readInput_num (by norm_num)
  rw [hcurN, hcurZ]
  have hoN : (calculatePayroll
      { dailyNoSalary with
        fringe_benefit_amount := some 0,
        hourly_rate := some nan, work_hours := some (num (8 * 22)) } twentyDom).ordinaryPay
      = nan := by
    rw [daily_ordinaryPay_eq _ _ rfl, h20]
    rfl
  have hgN : (calculatePayroll
      { dailyNoSalary with
        fringe_benefit_amount := some 0,
        hourly_rate := some nan, work_hours := some (num (8 * 22)) } twentyDom).grossPay
      = nan := by
    rw [grossPay_eq, hoN]
    simp only [nan_add]
  have hoZ : (calculatePayroll
      { dailyZeroSalary with
        fringe_benefit_amount := some 0,
        hourly_rate := some (num 0), work_hours := some (num (8 * 22)) } twentyDom).ordinaryPay
      = num 0 := by
    rw [daily_ordinaryPay_eq _ _ rfl, h20]
    simp [dailyZeroSalary, parseFloatField, num_mul]
  have hgZ : (calculatePayroll
      { dailyZeroSalary with
        fringe_benefit_amount := some 0,
        hourly_rate := some (num 0), work_hours := some (num (8 * 22)) } twentyDom).grossPay
      = num 0 := by
    rw [grossPay_eq, hoZ]
    simp [calculatePayroll, dailyZeroSalary, dailyNoSalary, EmployeeData.initial, twentyDom,
      emptyDom, readInput_empty, parseFloatField, fieldOr, num_mul, num_add, num_div]
  refine ⟨hoN, hgN, ?_, hoZ, hgZ, ?_⟩
  · rw [netPay_eq, hgN]
    rfl
  · rw [netPay_eq, totalDeductions_eq, paye_eq, uif_eq, sdl_eq, adjustedGrossPay_eq, hgZ]
    simp [calculatePayroll, calculateRecurringDeductions, dailyZeroSalary, dailyNoSalary,
      EmployeeData.initial, twentyDom, emptyDom, flag, fieldOr, num_add, num_sub]

/-! ## The recurring total as a sum -/

theorem zero_eq_num : (0 : JSNum) = num 0 := rfl

theorem num_zero_add (x : JSNum) : num 0 + x = x := by
  cases x with
  | nan => rfl
  | num q => rw [num_add, zero_add]

theorem jsnum_add_zero (x : JSNum) : x + num 0 = x := by
  cases x with
  | nan => rfl
  | num q => rw [num_add, add_zero]

theorem jsnum_add_assoc (a b c : JSNum) : a + b + c = a + (b + c) := by
  cases a <;> cases b <;> cases c <;> first | rfl | (simp only [num_add]; rw [add_assoc])

theorem foldl_add_eq (f : TableRow → JSNum) (rows : List TableRow) (a : JSNum) :
    rows.foldl (fun total row => total + f row) a = a + (rows.map f).sum := by
  induction rows generalizing a with
  | nil =>
    cases a with
    | nan => rfl
    | num q => simp [zero_eq_num, num_add]
  | cons r rs ih =>
    simp only [List.foldl_cons, List.map_cons, List.sum_cons]
    rw [ih, jsnum_add_assoc]

theorem sum_append_amounts (xs ys : List JSNum) : (xs ++ ys).sum = xs.sum + ys.sum := by
  induction xs with
  | nil => simp [zero_eq_num, num_zero_add]
  | cons x xs ih => simp only [List.cons_append, List.sum_cons, ih, jsnum_add_assoc]

theorem recurringTotal_eq_sum (base : JSNum) (rows : List TableRow) :
    (calculateRecurringDeductions base rows).2 = (rows.map (rowAmount base)).sum := by
  unfold calculateRecurringDeductions
  rw [foldl_add_eq, num_zero_add]

theorem accumulate_append {α : Type} (add : α → α → α) (zero : α) (xs ys : List α) :
    accumulate add zero (xs ++ ys) = accumulate add (accumulate add zero xs) ys := by
  simp [accumulate, List.foldl_append]

theorem accumulate_from {α : Type} (add : α → α → α) (zero : α)
    (hassoc : ∀ a b c : α, add (add a b) c = add a (add b c))
    (hzero : ∀ a : α, add a zero = a) (start : α) (ys : List α) :
    accumulate add start ys = add start (accumulate add zero ys) := by
  induction ys using List.reverseRecOn with
  | nil => exact (hzero start).symm
  | append_singleton ys y ih =>
    simp only [accumulate, List.foldl_append, List.foldl_cons, List.foldl_nil] at ih ⊢
    rw [ih, hassoc]

theorem recurringTotal_eq_accumulate (base : JSNum) (rows : List TableRow) :
    (calculateRecurringDeductions base rows).2
      = accumulate (fun a b => a + b) (num 0) (rows.map (rowAmount base)) := by
  simp [calculateRecurringDeductions, accumulate, List.foldl_map]

/-! ## Which deductions reach the table -/

theorem buildRows_filter_kept (ds : List Deduction) :
    buildRows ds = buildRows (ds.filter kept) := by
  induction ds with
  | nil => rfl
  | cons d ds ih =>
    by_cases hk : activeValue d = JSBool.bool false
    · have hf : kept d = false := by simp [kept, hk]
      rw [List.filter_cons_of_neg (by simp [hf])]
      simp only [buildRows, hk, if_true]
      exact ih
    · have hf : kept d = true := by simp [kept, hk]
      rw [List.filter_cons_of_pos hf]
      simp only [buildRows, hk, if_false]
      cases d.amount_type with
      | none => rfl
      | some t => simp only [ih]

theorem buildRows_of_typed (ds : List Deduction)
    (h : ∀ d ∈ ds, kept d = true → d.amount_type ≠ none) :
    buildRows ds = ((ds.filter kept).filterMap deductionRowOf, true) := by
  induction ds with
  | nil => rfl
  | cons d ds ih =>
    have ih' := ih (fun x hx => h x (List.mem_cons_of_mem d hx))
    by_cases hk : activeValue d = JSBool.bool false
    · have hf : kept d = false := by simp [kept, hk]
      rw [List.filter_cons_of_neg (by simp [hf])]
      simp only [buildRows, hk, if_true]
      exact ih'
    · have hf : kept d = true := by simp [kept, hk]
      rw [List.filter_cons_of_pos hf]
      simp only [buildRows, hk, if_false]
      cases ht : d.amount_type with
      | none => exact absurd ht (h d (List.mem_cons_self d ds) hf)
      | some t => simp [ih', deductionRowOf, ht]

theorem filterMap_deductionRow_length (ds : List Deduction)
    (h : ∀ d ∈ ds, d.amount_type ≠ none) :
    (ds.filterMap deductionRowOf).length = ds.length := by
  induction ds with
  | nil => rfl
  | cons d ds ih =>
    have hd := h d (List.mem_cons_self d ds)
    cases ht : d.amount_type with
    | none => exact absurd ht hd
    | some t =>
      have : deductionRowOf d = some
          { amountType := some t, value := some (valueAttr d.value),
            beneficiaryType := some (strOr d.beneficiary_type d.deduction_type),
            typeSelect := none, valueInput := none } := by
        simp [deductionRowOf, ht]
      rw [List.filterMap_cons_some this, List.length_cons, List.length_cons,
        ih (fun x hx => h x (List.mem_cons_of_mem d hx))]

/-- Claim C21 at a medical-aid deduction with `is_active` true and `enabled` false:
`buildDeductionsTable` keeps it and builds its row, which adds 300 to the
recurring total, while the medical-aid lookup of `populatePayrollModal`
treats it as inactive and finds nothing; the two activity tests of the code
disagree. -/
theorem deduction_enabled_false_is_kept :
    mixedFlagsDeduction.enabled = JSBool.bool false
      ∧ kept mixedFlagsDeduction = true
      ∧ (buildDeductionsTable mixedFlagsRecord).1.length = 1
      ∧ (buildDeductionsTable mixedFlagsRecord).1.map (rowAmount (num 0)) = [num 300]
      ∧ lookupActive mixedFlagsDeduction = false
      ∧ findMedicalAid mixedFlagsRecord = none := by
  refine ⟨rfl, by simp [kept, activeValue, mixedFlagsDeduction], ?_, ?_, ?_, ?_⟩
  · simp [buildDeductionsTable, mixedFlagsRecord, buildRows, activeValue, mixedFlagsDeduction]
  · simp [buildDeductionsTable, mixedFlagsRecord, buildRows, activeValue, mixedFlagsDeduction,
      rowAmount, rowTypeValue, strTruthy, toLowerCase, valueAttr, parseFloatAttr, parseFloat]
  · simp [lookupActive, mixedFlagsDeduction]
  · simp [findMedicalAid, mixedFlagsRecord, lookupActive, mixedFlagsDeduction]

/-- A deduction whose active value (`is_active` when it is defined, else
`enabled`) is `false` is left out by `buildDeductionsTable`: the
table, and so the recurring total, is the one built from the other deductions
alone; when each of those has an `amount_type`, the function returns and the
rows are theirs, one per deduction, in the order of the record. -/
theorem buildDeductionsTable_kept (ds : List Deduction)
    (h : ∀ d ∈ ds, kept d = true → d.amount_type ≠ none) :
    (∀ d : Deduction, kept d = false ↔ activeValue d = JSBool.bool false)
      ∧ buildRows ds = buildRows (ds.filter kept)
      ∧ (∀ (cur : EmployeeData), cur.recurring_deductions = some ds →
          buildDeductionsTable cur = ((ds.filter kept).filterMap deductionRowOf, true)
            ∧ (buildDeductionsTable cur).1.length = (ds.filter kept).length
            ∧ ∀ base : JSNum,
                (calculateRecurringDeductions base (buildDeductionsTable cur).1).2
                  = (calculateRecurringDeductions base
                      ((ds.filter kept).filterMap deductionRowOf)).2) := by
  refine ⟨fun d => by simp [kept], buildRows_filter_kept ds, ?_⟩
  intro cur hcur
  have hb : buildDeductionsTable cur = ((ds.filter kept).filterMap deductionRowOf, true) := by
    simp only [buildDeductionsTable, hcur]
    exact buildRows_of_typed ds h
  refine ⟨hb, ?_, fun base => by rw [hb]⟩
  rw [hb]
  apply filterMap_deductionRow_length
  intro d hd
  rw [List.mem_filter] at hd
  exact h d hd.1 hd.2

/-- At an inactive deduction followed by an active one, the table has the
single row of the second. -/
theorem buildDeductionsTable_kept_witness :
    (twoDeductions.filter kept).length = 1
      ∧ buildRows twoDeductions = buildRows (twoDeductions.filter kept)
      ∧ (buildDeductionsTable
            { EmployeeData.initial with recurring_deductions := some twoDeductions }).1.length
          = (twoDeductions.filter kept).length := by
  have h : ∀ d ∈ twoDeductions, kept d = true → d.amount_type ≠ none := by
    intro d hd _
    simp only [twoDeductions, List.mem_cons, List.mem_singleton, List.not_mem_nil, or_false] at hd
    rcases hd with rfl | rfl <;> simp
  exact ⟨by simp [twoDeductions, kept, activeValue],
    (buildDeductionsTable_kept twoDeductions h).2.1,
    ((buildDeductionsTable_kept twoDeductions h).2.2
      { EmployeeData.initial with recurring_deductions := some twoDeductions } rfl).2.1⟩

/-! ## Failed loads -/

theorem populatePayrollModal_failed_preview (response : Option EmployeeData) (page : Page)
    (h : (populatePayrollModal response page).2 = false) :
    (populatePayrollModal response page).1.preview = page.preview := by
  unfold populatePayrollModal at h ⊢
  cases response with
  | none => rfl
  | some data =>
    cases hst : data.salary_type with
    | none => simp [hst]
    | some st =>
      simp only [hst] at h ⊢
      split_ifs at h ⊢ <;> rfl

/-- Claim C22 fails: after a load that failed, a run of `calculatePayroll` still
computes a breakdown.  Stale: the hourly record is loaded, the next fetch
fails and leaves the page as it was, and with 10 overtime hours typed the run
shows an overtime pay of 1500 from the earlier record.  Undefined: on a blank
page a failed fetch is followed by a run that shows a breakdown.  Partial: a
record without `salary_type` stops the load after `currentEmployeeData` was
assigned, and a run shows a breakdown. -/
theorem calculator_runs_after_failed_load :
    populatePayrollModal none loadedPage = (loadedPage, false)
      ∧ Option.map Breakdown.overtimePay
          (typeOvertime (populatePayrollModal none loadedPage).1).calculatePayroll.preview
          = some (num 1500)
      ∧ (populatePayrollModal none blankPage).2 = false
      ∧ (populatePayrollModal none blankPage).1.calculatePayroll.preview
          = some (calculatePayroll EmployeeData.initial emptyDom)
      ∧ (populatePayrollModal (some partialRecord) blankPage).2 = false
      ∧ (populatePayrollModal (some partialRecord) blankPage).1.currentEmployeeData.salary
          = some 100
      ∧ ((populatePayrollModal (some partialRecord) blankPage).1.calculatePayroll.preview).isSome
          = true := by
  refine ⟨rfl, ?_, rfl, rfl, rfl, rfl, rfl⟩
  obtain ⟨hst, -, -, -, -, hrate, -⟩ :=
    populatePayrollModal_stored hourlyRecord blankPage "hourly" rfl
  have hpre : (typeOvertime (populatePayrollModal none loadedPage).1).calculatePayroll.preview
      = some (calculatePayroll (populatePayrollModal (some hourlyRecord) blankPage).1.currentEmployeeData
          (typeOvertime loadedPage).dom) := rfl
  rw [hpre, Option.map_some']
  congr 1
  rw [(calculatePayroll_hourly _ _ hst).2.2.1, hrate]
  have hr : (deriveRates hourlyRecord "hourly").hourlyRate = num 100 := by
    simp [deriveRates, hourlyRecord, parseFloatField]
  have hi : readInput (typeOvertime loadedPage).dom.overtime_hours = num 10 :=
    readInput_num (by norm_num)
  rw [hr, hi]
  simp only [toNumber, num_mul]
  norm_num

/-- Claim C22 as amended: when the load fails, `populatePayrollModal` does not
run the calculator and does not show the modal: the preview stays as it was;
when the fetch or the JSON decoding fails, the whole page stays as it was. -/
theorem populatePayrollModal_failure (response : Option EmployeeData) (page : Page)
    (h : (populatePayrollModal response page).2 = false) :
    (populatePayrollModal response page).1.preview = page.preview
      ∧ (response = none → (populatePayrollModal response page).1 = page)
      ∧ populatePayrollModal none page = (page, false) := by
  refine ⟨populatePayrollModal_failed_preview response page h, ?_, rfl⟩
  intro hr
  subst hr
  rfl

/-- Claim C22 as amended, at a record without `salary_type` loaded into a blank
page: the load fails and no preview is shown. -/
theorem populatePayrollModal_failure_witness :
    (populatePayrollModal (some partialRecord) blankPage).2 = false
      ∧ (populatePayrollModal (some partialRecord) blankPage).1.preview = none :=
  ⟨rfl, (populatePayrollModal_failure (some partialRecord) blankPage rfl).1⟩

/-! ## Displayed and applied multipliers -/

/-- Claim C23: after `populatePayrollModal` loaded a record whose type is neither
monthly nor piece and whose derived hourly rate is a non-zero number `h`,
`calculatePayroll` multiplies by 1.5, 2.0 and 2.0 whatever the configuration
card holds, while the rate panel filled by `populatePayrollModal` shows
`h * a` for a configured multiplier `a` and `h * 1.5`, `h * 2` and `h * 2.5`
for an attribute that is absent or empty; so without configured multipliers
one public-holiday hour is paid `h * 2.0` and shown as `h * 2.5`, and the
overtime and Sunday rates agree. -/
theorem rate_panel_vs_calculation (data : EmployeeData) (page : Page) (dom : Dom)
    (card : ConfigCard) (st : String) (h : ℚ)
    (hst : data.salary_type = some st) (hm : st ≠ "monthly") (hp : st ≠ "piece")
    (hrate : (deriveRates data st).hourlyRate = num h) (hne : h ≠ 0) :
    ((calculatePayroll (populatePayrollModal (some data) page).1.currentEmployeeData dom).overtimePay
          = readInput dom.overtime_hours * num h * num 1.5
        ∧ (calculatePayroll (populatePayrollModal (some data) page).1.currentEmployeeData
            dom).sundayPay = readInput dom.sunday_hours * num h * num 2.0
        ∧ (calculatePayroll (populatePayrollModal (some data) page).1.currentEmployeeData
            dom).publicHolidayPay = readInput dom.public_holiday_hours * num h * num 2.0)
      ∧ populatePayrollModal.ratePanel card (some data) = some (ratePanel card (num h))
      ∧ (ratePanel card (num h)).hourly = num h
      ∧ (∀ a : ℚ, card.ot = some (NumText.text (num a)) →
          (ratePanel card (num h)).overtime = num (h * a))
      ∧ (∀ a : ℚ, card.sun = some (NumText.text (num a)) →
          (ratePanel card (num h)).sunday = num (h * a))
      ∧ (∀ a : ℚ, card.hol = some (NumText.text (num a)) →
          (ratePanel card (num h)).holiday = num (h * a))
      ∧ (card.ot = none ∨ card.ot = some NumText.empty →
          (ratePanel card (num h)).overtime = num (h * 1.5)
            ∧ (readInput dom.overtime_hours = num 1 →
                (calculatePayroll (populatePayrollModal (some data) page).1.currentEmployeeData
                    dom).overtimePay = (ratePanel card (num h)).overtime))
      ∧ (card.sun = none ∨ card.sun = some NumText.empty →
          (ratePanel card (num h)).sunday = num (h * 2)
            ∧ (readInput dom.sunday_hours = num 1 →
                (calculatePayroll (populatePayrollModal (some data) page).1.currentEmployeeData
                    dom).sundayPay = (ratePanel card (num h)).sunday))
      ∧ (card.hol = none ∨ card.hol = some NumText.empty →
          (ratePanel card (num h)).holiday = num (h * 2.5)
            ∧ (readInput dom.public_holiday_hours = num 1 →
                (calculatePayroll (populatePayrollModal (some data) page).1.currentEmployeeData
                    dom).publicHolidayPay = num (h * 2.0)
                  ∧ (calculatePayroll (populatePayrollModal (some data) page).1.currentEmployeeData
                    dom).publicHolidayPay ≠ (ratePanel card (num h)).holiday)) := by
  obtain ⟨hcst, -, -, -, -, -, -⟩ := populatePayrollModal_stored data page st hst
  have hcm : (populatePayrollModal (some data) page).1.currentEmployeeData.salary_type
      ≠ some "monthly" := by
    rw [hcst]
    simpa using hm
  have hcp : (populatePayrollModal (some data) page).1.currentEmployeeData.salary_type
      ≠ some "piece" := by
    rw [hcst]
    simpa using hp
  obtain ⟨h1, h2, h3⟩ := calculatePayroll_premium _ dom hcm hcp
  rw [hourlyRate_stored data page st dom hst, hrate] at h1 h2 h3
  refine ⟨⟨h1, h2, h3⟩, ?_, rfl, ?_, ?_, ?_, ?_, ?_, ?_⟩
  · simp only [populatePayrollModal.ratePanel, hst, hrate]
  · intro a ha
    simp only [ratePanel, ha, multiplier, num_mul]
  · intro a ha
    simp only [ratePanel, ha, multiplier, num_mul]
  · intro a ha
    simp only [ratePanel, ha, multiplier, num_mul]
  · intro hc
    have hv : (ratePanel card (num h)).overtime = num (h * 1.5) := by
      rcases hc with hc | hc <;> simp only [ratePanel, hc, multiplier, num_mul]
    refine ⟨hv, fun ho => ?_⟩
    rw [h1, ho, hv, num_mul, num_mul, one_mul]
  · intro hc
    have hv : (ratePanel card (num h)).sunday = num (h * 2) := by
      rcases hc with hc | hc <;> simp only [ratePanel, hc, multiplier, num_mul]
    refine ⟨hv, fun ho => ?_⟩
    rw [h2, ho, hv, num_mul, num_mul, one_mul]
    norm_num
  · intro hc
    have hv : (ratePanel card (num h)).holiday = num (h * 2.5) := by
      rcases hc with hc | hc <;> simp only [ratePanel, hc, multiplier, num_mul]
    refine ⟨hv, fun ho => ?_⟩
    rw [h3, ho, hv, num_mul, num_mul, one_mul]
    refine ⟨rfl, ?_⟩
    intro hcontra
    have h2 : h * 2.0 = h * 2.5 := JSNum.num.inj hcontra
    apply hne
    norm_num at h2
    linarith

/-- Claim C23 at the hourly record paid 100 and one hour of each kind: with the
multipliers 1.75, 2.25 and 3 configured the panel shows 175, 225 and 300 while
the hours are paid 150, 200 and 200; with none configured the holiday hour is
paid 200 and shown as 250. -/
theorem rate_panel_vs_calculation_witness :
    hourlyRecord.salary_type = some "hourly"
      ∧ populatePayrollModal.ratePanel tunedCard (some hourlyRecord)
          = some { hourly := num 100, overtime := num (100 * 1.75),
                   sunday := num (100 * 2.25), holiday := num (100 * 3) }
      ∧ (calculatePayroll (populatePayrollModal (some hourlyRecord) blankPage).1.currentEmployeeData
            oneHourEachDom).overtimePay = num 1 * num 100 * num 1.5
      ∧ (calculatePayroll (populatePayrollModal (some hourlyRecord) blankPage).1.currentEmployeeData
            oneHourEachDom).publicHolidayPay = num (100 * 2.0)
      ∧ (calculatePayroll (populatePayrollModal (some hourlyRecord) blankPage).1.currentEmployeeData
            oneHourEachDom).publicHolidayPay ≠ (ratePanel plainCard (num 100)).holiday := by
  have hr : (deriveRates hourlyRecord "hourly").hourlyRate = num 100 := by
    simp [deriveRates, hourlyRecord, parseFloatField]
  have hin : readInput oneHourEachDom.public_holiday_hours = num 1 :=
    readInput_num (by norm_num)
  have hT := rate_panel_vs_calculation hourlyRecord blankPage oneHourEachDom tunedCard
    "hourly" 100 rfl (by decide) (by decide) hr (by norm_num)
  have hP := rate_panel_vs_calculation hourlyRecord blankPage oneHourEachDom plainCard
    "hourly" 100 rfl (by decide) (by decide) hr (by norm_num)
  refine ⟨rfl, ?_, ?_, ((hP.2.2.2.2.2.2.2.2 (Or.inl rfl)).2 hin).1,
    ((hP.2.2.2.2.2.2.2.2 (Or.inl rfl)).2 hin).2⟩
  · rw [hT.2.1]
    have ho := hT.2.2.2.1 1.75 rfl
    have hs := hT.2.2.2.2.1 2.25 rfl
    have hh := hT.2.2.2.2.2.1 3 rfl
    have hy := hT.2.2.1
    have hall : ratePanel tunedCard (num 100)
        = { hourly := (ratePanel tunedCard (num 100)).hourly,
            overtime := (ratePanel tunedCard (num 100)).overtime,
            sunday := (ratePanel tunedCard (num 100)).sunday,
            holiday := (ratePanel tunedCard (num 100)).holiday } := rfl
    rw [hall, ho, hs, hh, hy]
  · have := hT.1.1
    rwa [show readInput oneHourEachDom.overtime_hours = num 1 from
      readInput_num (by norm_num)] at this

/-! ## Malformed deductions -/

/-- When every kept deduction of the record has an `amount_type`, whatever it
reads and whatever the `value` is, `populatePayrollModal` reaches its end: the
table is built and the preview computed. -/
theorem populatePayrollModal_completes (data : EmployeeData) (page : Page) (st : String)
    (hst : data.salary_type = some st)
    (h : ∀ d ∈ data.recurring_deductions.getD [], kept d = true → d.amount_type ≠ none) :
    (populatePayrollModal (some data) page).2 = true := by
  have hcfg : configListThrows (data.recurring_deductions.getD []) = false := by
    unfold configListThrows
    rw [List.any_eq_false]
    intro d hd
    by_cases hk : kept d = true
    · have := h d hd hk
      cases ht : d.amount_type with
      | none => exact absurd ht this
      | some t => simp
    · simp only [kept, Bool.not_eq_true', Bool.not_eq_false'] at hk
      simp [hk]
  have hbuild : ∀ cur : EmployeeData, cur.recurring_deductions = data.recurring_deductions →
      (buildDeductionsTable cur).2 = true := by
    intro cur hc
    unfold buildDeductionsTable
    rw [hc]
    cases hds : data.recurring_deductions with
    | none => rfl
    | some ds =>
      rw [hds] at h
      simp only [Option.getD_some] at h
      show (buildRows ds).2 = true
      rw [buildRows_of_typed ds h]
  have hb : (buildDeductionsTable data).2 = true := hbuild data rfl
  unfold buildDeductionsTable at hb
  simp only [populatePayrollModal, hst, hcfg, buildDeductionsTable]
  by_cases hp : st = "piece"
  · simp [hp, hb]
  · simp [hp, hb]

/-- Claim C24 fails at a record with one active deduction that has no
`amount_type`: `d.amount_type.toLowerCase()` throws, `populatePayrollModal`
ends in its `catch` block, no row is in the table and `calculatePayroll` was
not run; the same record with the deduction labelled medical aid passes the
configuration list and throws in `buildDeductionsTable`. -/
theorem absent_amount_type_aborts_load :
    configListThrows [loanDeduction] = true
      ∧ (populatePayrollModal (some malformedRecord) blankPage).2 = false
      ∧ (populatePayrollModal (some malformedRecord) blankPage).1.dom.rows = []
      ∧ (populatePayrollModal (some malformedRecord) blankPage).1.preview = none
      ∧ (buildDeductionsTable malformedMedicalRecord).2 = false
      ∧ (populatePayrollModal (some malformedMedicalRecord) blankPage).2 = false
      ∧ (populatePayrollModal (some malformedMedicalRecord) blankPage).1.preview = none := by
  refine ⟨by decide, by decide, by decide, by decide, by decide, by decide, by decide⟩

/-! ## The identity number in the edit modal -/

open EmployeeModal PortfolioDashboard

/-- Claim C25 fails at the 13-digit number `9902310000000`, whose first six digits
read 31 February 1999: no `Invalid date in ID number` is shown, the string
`1999-02-31` is assigned to the date of birth, the gender is set to `Female`
and the success message is shown. -/
theorem february_thirty_first_accepted :
    validateAndExtractFromEditId "9902310000000" blankForm
      = { dateOfBirth := "1999-02-31", gender := "Female", validationText := "",
          validationShown := false, successShown := true } := by
  decide

/-- Claim C25 as amended: for a value that is 13 digits once white space is removed
and whose month digits are outside 01..12 or day digits outside 01..31,
`validateAndExtractFromEditId` shows `Invalid date in ID number`, hides the
success message and writes neither the date of birth nor the gender. -/
theorem invalid_month_or_day_rejected (idValue : String) (form : EditForm)
    (h13 : isThirteenDigits (stripWhiteSpace idValue) = true)
    (hrange : ¬ (1 ≤ parseInt (((stripWhiteSpace idValue).drop 2).take 2)
        ∧ parseInt (((stripWhiteSpace idValue).drop 2).take 2) ≤ 12
        ∧ 1 ≤ parseInt (((stripWhiteSpace idValue).drop 4).take 2)
        ∧ parseInt (((stripWhiteSpace idValue).drop 4).take 2) ≤ 31)) :
    validateAndExtractFromEditId idValue form
        = { form with validationText := "Invalid date in ID number",
                      validationShown := true, successShown := false }
      ∧ (validateAndExtractFromEditId idValue form).dateOfBirth = form.dateOfBirth
      ∧ (validateAndExtractFromEditId idValue form).gender = form.gender := by
  have h : validateAndExtractFromEditId idValue form
      = { form with validationText := "Invalid date in ID number",
                    validationShown := true, successShown := false } := by
    simp only [validateAndExtractFromEditId, h13, if_true]
    rw [if_neg hrange]
  rw [h]
  exact ⟨rfl, rfl, rfl⟩

/-- Claim C25 as amended, at the number `9913010000000` with month digits 13. -/
theorem invalid_month_or_day_rejected_witness :
    isThirteenDigits (stripWhiteSpace "9913010000000") = true
      ∧ validateAndExtractFromEditId "9913010000000" blankForm
        = { blankForm with validationText := "Invalid date in ID number",
                           validationShown := true, successShown := false } :=
  ⟨by decide, (invalid_month_or_day_rejected "9913010000000" blankForm (by decide)
    (by decide)).1⟩

theorem digit_value_le (c : Char) (h : c.isDigit = true) : c.toNat - 48 ≤ 9 := by
  simp only [Char.isDigit, Bool.and_eq_true, decide_eq_true_eq] at h
  have h2 : c.val.toNat ≤ 57 := h.2
  show c.val.toNat - 48 ≤ 9
  omega

theorem parseInt_foldl_lt (digits : List Char) (n : ℕ)
    (h : digits.all Char.isDigit = true) :
    digits.foldl (fun n c => 10 * n + (c.toNat - 48)) n < (n + 1) * 10 ^ digits.length := by
  induction digits generalizing n with
  | nil => simp
  | cons c cs ih =>
    simp only [List.all_cons, Bool.and_eq_true] at h
    have hc := digit_value_le c h.1
    have := ih (10 * n + (c.toNat - 48)) h.2
    simp only [List.foldl_cons, List.length_cons]
    calc List.foldl (fun n c => 10 * n + (c.toNat - 48)) (10 * n + (c.toNat - 48)) cs
        < (10 * n + (c.toNat - 48) + 1) * 10 ^ cs.length := this
      _ ≤ (10 * n + 10) * 10 ^ cs.length := Nat.mul_le_mul_right _ (by omega)
      _ = (n + 1) * 10 ^ (cs.length + 1) := by ring

theorem parseInt_lt (digits : List Char) (h : digits.all Char.isDigit = true) :
    parseInt digits < 10 ^ digits.length := by
  have := parseInt_foldl_lt digits 0 h
  simpa [parseInt] using this

theorem all_digits_drop_take (l : List Char) (i k : ℕ) (h : l.all Char.isDigit = true) :
    ((l.drop i).take k).all Char.isDigit = true := by
  rw [List.all_eq_true] at h ⊢
  intro c hc
  exact h c (List.mem_of_mem_drop (List.mem_of_mem_take hc))

theorem padStart2_length (m : ℕ) (h1 : 1 ≤ m) (h2 : m ≤ 31) :
    (padStart2 (toString m)).length = 2 := by
  interval_cases m <;> decide

/-- Claim C26: for a value that is 13 digits once white space is removed, with
month digits in 01..12 and day digits in 01..31, the date of birth is set to
`YYYY-MM-DD`, month and day padded to two characters and
`YYYY = 2000 + YY` if `YY <= 24`, `1900 + YY` otherwise; the gender is set to
`Female` when digits 7-10 read at most 4999 and to `Male` otherwise; a value
that is not 13 digits and not empty once white space is removed gets
`ID number must be exactly 13 digits` and keeps date of birth and gender; a
value that is empty once white space is removed only has both messages
hidden. -/
theorem validateAndExtractFromEditId_spec (idValue : String) (form : EditForm) :
    (isThirteenDigits (stripWhiteSpace idValue) = true →
        1 ≤ parseInt (((stripWhiteSpace idValue).drop 2).take 2) →
        parseInt (((stripWhiteSpace idValue).drop 2).take 2) ≤ 12 →
        1 ≤ parseInt (((stripWhiteSpace idValue).drop 4).take 2) →
        parseInt (((stripWhiteSpace idValue).drop 4).take 2) ≤ 31 →
        (validateAndExtractFromEditId idValue form).dateOfBirth
            = toString (if parseInt ((stripWhiteSpace idValue).take 2) ≤ 24
                  then 2000 + parseInt ((stripWhiteSpace idValue).take 2)
                  else 1900 + parseInt ((stripWhiteSpace idValue).take 2))
                ++ "-" ++ padStart2 (toString (parseInt (((stripWhiteSpace idValue).drop 2).take 2)))
                ++ "-" ++ padStart2 (toString (parseInt (((stripWhiteSpace idValue).drop 4).take 2)))
          ∧ (padStart2 (toString (parseInt (((stripWhiteSpace idValue).drop 2).take 2)))).length = 2
          ∧ (padStart2 (toString (parseInt (((stripWhiteSpace idValue).drop 4).take 2)))).length = 2
          ∧ (parseInt (((stripWhiteSpace idValue).drop 6).take 4) ≤ 4999 →
              (validateAndExtractFromEditId idValue form).gender = "Female")
          ∧ (5000 ≤ parseInt (((stripWhiteSpace idValue).drop 6).take 4) →
              (validateAndExtractFromEditId idValue form).gender = "Male")
          ∧ parseInt (((stripWhiteSpace idValue).drop 6).take 4) ≤ 9999
          ∧ ((validateAndExtractFromEditId idValue form).gender = "Female"
              ∨ (validateAndExtractFromEditId idValue form).gender = "Male")
          ∧ (validateAndExtractFromEditId idValue form).successShown = true
          ∧ (validateAndExtractFromEditId idValue form).validationShown = false)
      ∧ (isThirteenDigits (stripWhiteSpace idValue) = false → stripWhiteSpace idValue ≠ [] →
          validateAndExtractFromEditId idValue form
            = { form with validationText := "ID number must be exactly 13 digits",
                          validationShown := true, successShown := false })
      ∧ (stripWhiteSpace idValue = [] →
          validateAndExtractFromEditId idValue form
            = { form with validationShown := false, successShown := false }) := by
  refine ⟨?_, ?_, ?_⟩
  · intro h13 hm1 hm2 hd1 hd2
    have hrange : 1 ≤ parseInt (((stripWhiteSpace idValue).drop 2).take 2)
        ∧ parseInt (((stripWhiteSpace idValue).drop 2).take 2) ≤ 12
        ∧ 1 ≤ parseInt (((stripWhiteSpace idValue).drop 4).take 2)
        ∧ parseInt (((stripWhiteSpace idValue).drop 4).take 2) ≤ 31 := ⟨hm1, hm2, hd1, hd2⟩
    have hall : (stripWhiteSpace idValue).all Char.isDigit = true := by
      simp only [isThirteenDigits, Bool.and_eq_true] at h13
      exact h13.2
    have hg : parseInt (((stripWhiteSpace idValue).drop 6).take 4) ≤ 9999 := by
      have h1 := parseInt_lt _ (all_digits_drop_take (stripWhiteSpace idValue) 6 4 hall)
      have h2 : (((stripWhiteSpace idValue).drop 6).take 4).length ≤ 4 :=
        List.length_take_le 4 _
      have h3 : 10 ^ (((stripWhiteSpace idValue).drop 6).take 4).length ≤ 10 ^ 4 :=
        Nat.pow_le_pow_right (by norm_num) h2
      omega
    have hfem : parseInt (((stripWhiteSpace idValue).drop 6).take 4) ≤ 4999 →
        (validateAndExtractFromEditId idValue form).gender = "Female" := by
      intro h
      simp only [validateAndExtractFromEditId, h13, if_true]
      rw [if_pos hrange]
      simp [h]
    have hmale : 5000 ≤ parseInt (((stripWhiteSpace idValue).drop 6).take 4) →
        (validateAndExtractFromEditId idValue form).gender = "Male" := by
      intro h
      simp only [validateAndExtractFromEditId, h13, if_true]
      rw [if_pos hrange]
      have h' : ¬ parseInt (((stripWhiteSpace idValue).drop 6).take 4) ≤ 4999 := by omega
      simp [h', h, hg]
    refine ⟨?_, padStart2_length _ hm1 (by omega), padStart2_length _ hd1 hd2,
      hfem, hmale, hg, ?_, ?_, ?_⟩
    · simp only [validateAndExtractFromEditId, h13, if_true]
      rw [if_pos hrange]
    · by_cases h : parseInt (((stripWhiteSpace idValue).drop 6).take 4) ≤ 4999
      · exact Or.inl (hfem h)
      · exact Or.inr (hmale (by omega))
    · simp only [validateAndExtractFromEditId, h13, if_true]
      rw [if_pos hrange]
    · simp only [validateAndExtractFromEditId, h13, if_true]
      rw [if_pos hrange]
  · intro h13 hne
    have hlen : (stripWhiteSpace idValue).length > 0 := List.length_pos.mpr hne
    simp only [validateAndExtractFromEditId, h13]
    simp [hlen]
  · intro hnil
    simp [validateAndExtractFromEditId, hnil, isThirteenDigits]

/-- Claim C26 at the value `8001015009087`: born `1980-01-01`, gender `Male`; and
at the value `12345`, which gets the 13-digits message. -/
theorem validateAndExtractFromEditId_spec_witness :
    isThirteenDigits (stripWhiteSpace "8001015009087") = true
      ∧ (validateAndExtractFromEditId "8001015009087" blankForm).gender = "Male"
      ∧ (validateAndExtractFromEditId "8001015009087" blankForm).dateOfBirth = "1980-01-01"
      ∧ validateAndExtractFromEditId "12345" blankForm
          = { blankForm with validationText := "ID number must be exactly 13 digits",
                             validationShown := true, successShown := false } :=
  ⟨by decide,
    ((validateAndExtractFromEditId_spec "8001015009087" blankForm).1 (by decide) (by decide)
      (by decide) (by decide) (by decide)).2.2.2.2.1 (by decide),
    by decide,
    (validateAndExtractFromEditId_spec "12345" blankForm).2.1 (by decide) (by decide)⟩

/-! ## Verification counts -/

theorem pendingCount_zero_iff (statuses : List (Option String)) :
    (statuses.length : ℤ) - ((statuses.filter fun s => decide (s = some "true")).length : ℤ) = 0
      ↔ ∀ s ∈ statuses, s = some "true" := by
  have hle := List.length_filter_le (fun s => decide (s = some "true")) statuses
  have hiff := List.filter_length_eq_length (p := fun s => decide (s = some "true"))
    (l := statuses)
  constructor
  · intro h
    have : (statuses.filter fun s => decide (s = some "true")).length = statuses.length := by
      omega
    intro s hs
    simpa using hiff.mp this s hs
  · intro h
    have : (statuses.filter fun s => decide (s = some "true")).length = statuses.length :=
      hiff.mpr (fun s hs => by simpa using h s hs)
    omega

/-- Claim C27: after `updateVerificationCounts` the verified count plus the
pending count is the number of verification statuses, both counts are
non-negative, the statuses are untouched, the pending count is 0 exactly when
every status is verified, and the process button, when the page has one, is
enabled exactly then; `updateEmployeeStatus` keeps the number of statuses. -/
theorem updateVerificationCounts_spec (p : VerificationPage) :
    (updateVerificationCounts p).verifiedCount + (updateVerificationCounts p).pendingCount
        = p.statuses.length
      ∧ 0 ≤ (updateVerificationCounts p).verifiedCount
      ∧ 0 ≤ (updateVerificationCounts p).pendingCount
      ∧ (updateVerificationCounts p).statuses = p.statuses
      ∧ ((updateVerificationCounts p).pendingCount = 0 ↔ ∀ s ∈ p.statuses, s = some "true")
      ∧ (∀ b : Bool, p.processDisabled = some b →
          ∃ b' : Bool, (updateVerificationCounts p).processDisabled = some b'
            ∧ (b' = false ↔ ∀ s ∈ p.statuses, s = some "true"))
      ∧ (p.processDisabled = none → (updateVerificationCounts p).processDisabled = none)
      ∧ (∀ (i : ℕ) (v : Bool),
          (updateEmployeeStatus i v p).statuses.length = p.statuses.length) := by
  have hle := List.length_filter_le (fun s => decide (s = some "true")) p.statuses
  have hzero := pendingCount_zero_iff p.statuses
  refine ⟨?_, ?_, ?_, rfl, hzero, ?_, ?_, ?_⟩
  · simp only [updateVerificationCounts]
    ring
  · simp only [updateVerificationCounts]
    exact Int.natCast_nonneg _
  · simp only [updateVerificationCounts]
    omega
  · intro b hb
    have hq : (updateVerificationCounts p).processDisabled
        = some (!decide ((p.statuses.length : ℤ)
            - ((p.statuses.filter fun s => decide (s = some "true")).length : ℤ) = 0)) := by
      simp only [updateVerificationCounts, hb, Option.map_some']
    refine ⟨_, hq, ?_⟩
    rw [← hzero]
    simp
  · intro hn
    simp only [updateVerificationCounts, hn, Option.map_none']
  · intro i v
    simp [updateEmployeeStatus]

/-- Claim C27 on a page with three employees: with the second pending the button
is disabled, and once `updateEmployeeStatus` marked it verified the button is
enabled. -/
theorem updateVerificationCounts_spec_witness :
    (updateVerificationCounts threeEmployees).processDisabled = some true
      ∧ (updateVerificationCounts (updateEmployeeStatus 1 true threeEmployees)).processDisabled
          = some false
      ∧ (∃ b' : Bool, (updateVerificationCounts threeEmployees).processDisabled = some b'
          ∧ (b' = false ↔ ∀ s ∈ threeEmployees.statuses, s = some "true")) :=
  ⟨by decide, by decide, (updateVerificationCounts_spec threeEmployees).2.2.2.2.2.1 false rfl⟩

/-! ## The portfolio dashboard -/

/-- Claim C28 fails at a table with the compliance cells `2 issues`, `10 issues`
and `Compliant`: the first `sortTable('compliance')` sorts ascending, puts the
compliant row first and then the row with 10 issues before the row with 2
issues, because the keys of rows with issues are compared as strings. -/
theorem compliance_sort_is_textual :
    (sortTable Column.compliance freshDashboard).sortDirection Column.compliance
        = some Direction.asc
      ∧ (sortTable Column.compliance freshDashboard).rows.map Row.compliance
        = ["Compliant", "10 issues", "2 issues"]
      ∧ compareKeys Direction.asc (textKey "10 issues") (textKey "2 issues") = -1
      ∧ (sortTable Column.compliance
            (sortTable Column.compliance freshDashboard)).rows.map Row.compliance
        = ["2 issues", "10 issues", "Compliant"] := by
  refine ⟨by decide, by decide, by decide, by decide⟩

/-- Claim C29: with `currentMonth` in 0..11, `previousMonth` and `nextMonth` keep
it in 0..11, each undoes the other, and twelve calls of `nextMonth` give the
same month one year later. -/
theorem month_navigation (d : Dashboard) (h0 : 0 ≤ d.currentMonth) (h11 : d.currentMonth ≤ 11) :
    (0 ≤ (previousMonth d).currentMonth ∧ (previousMonth d).currentMonth ≤ 11)
      ∧ (0 ≤ (nextMonth d).currentMonth ∧ (nextMonth d).currentMonth ≤ 11)
      ∧ previousMonth (nextMonth d) = d
      ∧ nextMonth (previousMonth d) = d
      ∧ (nextMonth^[12] d).currentMonth = d.currentMonth
      ∧ (nextMonth^[12] d).currentYear = d.currentYear + 1
      ∧ nextMonth^[12] d = { d with currentYear := d.currentYear + 1 } := by
  obtain ⟨m, y, sd, rows⟩ := d
  simp only at h0 h11
  interval_cases m <;>
    simp [previousMonth, nextMonth, Function.iterate_succ]

/-- Claim C29 at a dashboard in January 2025. -/
theorem month_navigation_witness :
    (previousMonth freshDashboard).currentMonth = 11
      ∧ (previousMonth freshDashboard).currentYear = 2024
      ∧ previousMonth (nextMonth freshDashboard) = freshDashboard
      ∧ (nextMonth^[12] freshDashboard).currentYear = freshDashboard.currentYear + 1 :=
  ⟨by decide, by decide,
    (month_navigation freshDashboard (by decide) (by decide)).2.2.1,
    (month_navigation freshDashboard (by decide) (by decide)).2.2.2.2.2.1⟩

/-! ## The derived hourly rate of the edit modal -/

/-- Claim C30: for a record with a numeric salary and a `salary_type`, the value
derived by `populateEditModal` before rounding is the `hourlyRate` derived
and stored by `populatePayrollModal`: the salary for hourly,
`salary / (ordinary_hours_per_day || 8)` for daily, and
`salary / ((ordinary_hours_per_day || 8) * (work_days_per_month || 22))`
otherwise. -/
theorem derivedHourlyRate_eq_payroll (data : EmployeeData) (st : String) (s : ℚ)
    (hst : data.salary_type = some st) (hs : data.salary = some s) :
    derivedHourlyRate data = some (deriveRates data st).hourlyRate
      ∧ (∀ page : Page,
          (populatePayrollModal (some data) page).1.currentEmployeeData.hourly_rate
            = derivedHourlyRate data)
      ∧ (st = "hourly" → derivedHourlyRate data = some (num s))
      ∧ (st = "daily" →
          derivedHourlyRate data = some (num (s / fieldOr data.ordinary_hours_per_day 8)))
      ∧ (st ≠ "hourly" → st ≠ "daily" →
          derivedHourlyRate data
            = some (num (s / (fieldOr data.ordinary_hours_per_day 8
                * fieldOr data.work_days_per_month 22)))) := by
  have hday : fieldOr data.ordinary_hours_per_day 8 ≠ 0 := fieldOr_ne_zero _ (by norm_num)
  have hprod := workHours_product_ne_zero data
  have hmain : derivedHourlyRate data = some (deriveRates data st).hourlyRate := by
    by_cases h1 : st = "hourly"
    · subst h1
      simp [derivedHourlyRate, deriveRates, hst, hs, parseFloatField]
    · by_cases h2 : st = "daily"
      · subst h2
        simp [derivedHourlyRate, deriveRates, hst, hs]
      · simp [derivedHourlyRate, deriveRates, hst, hs, h1, h2]
  refine ⟨hmain, ?_, ?_, ?_, ?_⟩
  · intro page
    rw [hmain]
    exact (populatePayrollModal_stored data page st hst).2.2.2.2.2.1
  · intro h1
    subst h1
    simp [derivedHourlyRate, hst, hs]
  · intro h2
    subst h2
    simp [derivedHourlyRate, hst, hs, parseFloatField, num_div hday]
  · intro h1 h2
    simp [derivedHourlyRate, hst, hs, h1, h2, parseFloatField, num_mul, num_div hprod]

/-- Claim C30 at a monthly record with salary 17600 and no hours fields: both
modals derive `17600 / (8 * 22)`. -/
theorem derivedHourlyRate_eq_payroll_witness :
    monthlyRecord.salary_type = some "monthly" ∧ monthlyRecord.salary = some 17600
      ∧ derivedHourlyRate monthlyRecord = some (deriveRates monthlyRecord "monthly").hourlyRate
      ∧ derivedHourlyRate monthlyRecord
          = some (num (17600 / (fieldOr monthlyRecord.ordinary_hours_per_day 8
              * fieldOr monthlyRecord.work_days_per_month 22))) :=
  ⟨rfl, rfl, (derivedHourlyRate_eq_payroll monthlyRecord "monthly" 17600 rfl rfl).1,
    (derivedHourlyRate_eq_payroll monthlyRecord "monthly" 17600 rfl rfl).2.2.2.2
      (by decide) (by decide)⟩

/-! ## The recurring total under double addition -/

/-- Claim C20 fails for the concatenation: with double addition the total of three
fixed rows of 0.1, 0.2 and 0.3 is `0x1.3333333333334p-1` (0.6000000000000001),
while the total of the first row plus the total of the other two is
`0x1.3333333333333p-1` (0.6).  The three amounts are doubles, each within half
a unit in the last place of its decimal. -/
theorem double_totals_not_additive :
    (round53 tenth = tenth ∧ round53 fifth = fifth ∧ round53 threeTenths = threeTenths)
      ∧ (10 * tenth - 2 ^ 60 ≤ 80 ∧ 2 ^ 60 ≤ 10 * tenth)
      ∧ (5 * fifth - 2 ^ 60 ≤ 80 ∧ 2 ^ 60 ≤ 5 * fifth)
      ∧ (3 * 2 ^ 60 - 10 * threeTenths ≤ 320 ∧ 10 * threeTenths ≤ 3 * 2 ^ 60)
      ∧ accumulate doubleAdd 0 ([tenth] ++ [fifth, threeTenths]) = 5404319552844596 * 128
      ∧ doubleAdd (accumulate doubleAdd 0 [tenth]) (accumulate doubleAdd 0 [fifth, threeTenths])
          = 5404319552844595 * 128
      ∧ accumulate doubleAdd 0 ([tenth] ++ [fifth, threeTenths])
          ≠ doubleAdd (accumulate doubleAdd 0 [tenth])
              (accumulate doubleAdd 0 [fifth, threeTenths]) := by
  refine ⟨by decide, by decide, by decide, by decide, by decide, by decide, by decide⟩

/-- Claim C20 as amended: the total returned by `calculateRecurringDeductions` is
the running total of the per-row amounts, added one by one to `0` in table
order; it is `0` for an empty table; the total of the concatenation of two row
lists is the total of the first with the amounts of the second added to it
one by one, for any addition; it is the sum of the two totals when the
addition is associative with `0` as right identity; `addPayrollDeductionRow`
appends its row after the rows already in the table. -/
theorem recurringTotal_is_running_total (base : JSNum) (rows more : List TableRow)
    (cur : EmployeeData) (dom : Dom) :
    (calculateRecurringDeductions base rows).1 = rows.map (rowAmount base)
      ∧ (calculateRecurringDeductions base rows).2
          = accumulate (fun a b => a + b) (num 0) (calculateRecurringDeductions base rows).1
      ∧ (calculateRecurringDeductions base []).2 = num 0
      ∧ (calculateRecurringDeductions base (rows ++ more)).2
          = accumulate (fun a b => a + b) (calculateRecurringDeductions base rows).2
              (more.map (rowAmount base))
      ∧ (calculatePayroll cur dom).recurringTotal
          = accumulate (fun a b => a + b) (num 0) (calculatePayroll cur dom).rowAmounts
      ∧ (addPayrollDeductionRow dom).rows = dom.rows ++ [newDeductionRow]
      ∧ (∀ (α : Type) (add : α → α → α) (zero : α) (xs ys : List α),
          accumulate add zero (xs ++ ys) = accumulate add (accumulate add zero xs) ys)
      ∧ (∀ (α : Type) (add : α → α → α) (zero : α) (xs ys : List α),
          (∀ a b c : α, add (add a b) c = add a (add b c)) → (∀ a : α, add a zero = a) →
          accumulate add zero (xs ++ ys)
            = add (accumulate add zero xs) (accumulate add zero ys)) := by
  refine ⟨rfl, recurringTotal_eq_accumulate base rows, rfl, ?_,
    recurringTotal_eq_accumulate _ dom.rows, rfl,
    fun α add zero xs ys => accumulate_append add zero xs ys, ?_⟩
  · rw [recurringTotal_eq_accumulate, recurringTotal_eq_accumulate, List.map_append,
      accumulate_append]
  · intro α add zero xs ys hassoc hzero
    rw [accumulate_append, accumulate_from add zero hassoc hzero]

/-- Claim C20 as amended, at the additions of natural numbers and of doubles: for
the exact addition the total of `[1, 2] ++ [3]` is the sum of the two totals;
for double addition the total of the concatenation continues from the total
of the first list. -/
theorem recurringTotal_is_running_total_witness :
    accumulate (fun a b : ℕ => a + b) 0 ([1, 2] ++ [3])
        = accumulate (fun a b : ℕ => a + b) 0 [1, 2] + accumulate (fun a b : ℕ => a + b) 0 [3]
      ∧ accumulate doubleAdd 0 ([tenth] ++ [fifth, threeTenths])
        = accumulate doubleAdd (accumulate doubleAdd 0 [tenth]) [fifth, threeTenths] :=
  ⟨(recurringTotal_is_running_total (num 0) [] [] EmployeeData.initial emptyDom).2.2.2.2.2.2.2
      ℕ (fun a b => a + b) 0 [1, 2] [3] (fun a b c => Nat.add_assoc a b c) (fun a => Nat.add_zero a),
    (recurringTotal_is_running_total (num 0) [] [] EmployeeData.initial emptyDom).2.2.2.2.2.2.1
      ℕ doubleAdd 0 [tenth] [fifth, threeTenths]⟩

/-! ## Recomputation on the document -/

theorem setContents_of_not_mem (writes : List (String × Content)) (elements : String → Content)
    (id : String) (h : id ∉ writes.map Prod.fst) : setContents writes elements id = elements id := by
  induction writes generalizing elements with
  | nil => rfl
  | cons w ws ih =>
    simp only [List.map_cons, List.mem_cons, not_or] at h
    show setContents ws (Function.update elements w.1 w.2) id = elements id
    rw [ih _ h.2, Function.update_noteq h.1]

theorem setContents_congr (writes : List (String × Content)) (e e' : String → Content)
    (h : ∀ id, id ∉ writes.map Prod.fst → e id = e' id) :
    setContents writes e = setContents writes e' := by
  induction writes generalizing e e' with
  | nil =>
    funext id
    exact h id (by simp)
  | cons w ws ih =>
    show setContents ws (Function.update e w.1 w.2) = setContents ws (Function.update e' w.1 w.2)
    apply ih
    intro id hid
    by_cases hw : id = w.1
    · subst hw
      simp
    · rw [Function.update_noteq hw, Function.update_noteq hw]
      apply h
      simp only [List.map_cons, List.mem_cons, not_or]
      exact ⟨hw, hid⟩

theorem setContents_idem (writes : List (String × Content)) (e : String → Content) :
    setContents writes (setContents writes e) = setContents writes e :=
  setContents_congr writes _ _ (fun id hid => setContents_of_not_mem writes e id hid)

theorem previewWrites_keys (b : Breakdown) (allowances : JSNum) :
    (previewWrites b allowances).map Prod.fst = writtenIds := rfl

theorem read_showAmount (amount : JSNum) (r : DocRow) : (r.showAmount amount).read = r.read := by
  unfold DocRow.showAmount
  cases h : r.parts ".deduction-amount" with
  | none => rfl
  | some c =>
    have h1 : (".amount-type-select" : String) ≠ ".deduction-amount" := by decide
    have h2 : (".deduction-value" : String) ≠ ".deduction-amount" := by decide
    simp only [DocRow.read, Function.update_noteq h1, Function.update_noteq h2]

theorem showAmount_showAmount (amount : JSNum) (r : DocRow) :
    (r.showAmount amount).showAmount amount = r.showAmount amount := by
  unfold DocRow.showAmount
  cases h : r.parts ".deduction-amount" with
  | none => simp only [h]
  | some c => simp [h]

theorem dom_write (b : Breakdown) (allowances : JSNum) (doc : Document) :
    (doc.write b allowances).dom = doc.dom := by
  have hkeys := previewWrites_keys b allowances
  have hel : ∀ id ∈ readIds,
      setContents (previewWrites b allowances) doc.elements id = doc.elements id := by
    intro id hid
    apply setContents_of_not_mem
    rw [hkeys]
    simp only [readIds, List.mem_cons, List.mem_singleton, List.not_mem_nil, or_false] at hid
    rcases hid with rfl | rfl | rfl | rfl | rfl | rfl | rfl <;> decide
  have hrows : (doc.rows.map fun r => r.showAmount (rowAmount b.grossPay r.read)).map DocRow.read
      = doc.rows.map DocRow.read := by
    rw [List.map_map]
    apply List.map_congr_left
    intro r _
    exact read_showAmount _ r
  simp only [Document.dom, Document.write, hrows]
  rw [hel "ordinary_hours" (by decide), hel "overtime_hours" (by decide),
    hel "sunday_hours" (by decide), hel "public_holiday_hours" (by decide),
    hel "allowances" (by decide), hel "bonus_amount" (by decide),
    hel "pieces_produced" (by decide)]

theorem write_write (b : Breakdown) (allowances : JSNum) (doc : Document) :
    (doc.write b allowances).write b allowances = doc.write b allowances := by
  have hrows : ((doc.rows.map fun r => r.showAmount (rowAmount b.grossPay r.read)).map
        fun r => r.showAmount (rowAmount b.grossPay r.read))
      = doc.rows.map fun r => r.showAmount (rowAmount b.grossPay r.read) := by
    rw [List.map_map]
    apply List.map_congr_left
    intro r _
    simp only [Function.comp, read_showAmount, showAmount_showAmount]
  simp only [Document.write, setContents_idem, hrows, Function.update_idem]

theorem elements_write (b : Breakdown) (allowances : JSNum) (doc : Document) :
    (doc.write b allowances).elements "preview-gross-pay" = Content.shown b.grossPay
      ∧ (doc.write b allowances).elements "preview-paye" = Content.shown b.paye
      ∧ (doc.write b allowances).elements "preview-uif" = Content.shown b.uif
      ∧ (doc.write b allowances).elements "preview-sdl" = Content.shown b.sdl
      ∧ (doc.write b allowances).elements "preview-recurring-total"
          = Content.shown b.recurringTotal
      ∧ (doc.write b allowances).elements "preview-total-deductions"
          = Content.shown b.totalDeductions
      ∧ (doc.write b allowances).elements "preview-net-pay" = Content.shown b.netPay := by
  refine ⟨?_, ?_, ?_, ?_, ?_, ?_, ?_⟩ <;>
    simp [Document.write, setContents, previewWrites, Function.update]

/-- Claim C11: a run of `calculatePayroll` leaves `currentEmployeeData` alone and
writes to no element that it reads: the seven inputs keep their content and
every row keeps its attributes, its select and its value input, because the
elements written have other `id`s and another class; so a second run computes
the same breakdown and leaves the document exactly as the first run left it,
with the same gross pay, PAYE, UIF, SDL, recurring total, total deductions,
net pay and per-row amounts shown. -/
theorem calculatePayroll_rerun (s : Session) :
    s.calculatePayroll.currentEmployeeData = s.currentEmployeeData
      ∧ (∀ id ∈ readIds,
          s.calculatePayroll.document.elements id = s.document.elements id)
      ∧ s.calculatePayroll.document.rows.map DocRow.read = s.document.rows.map DocRow.read
      ∧ s.calculatePayroll.document.dom = s.document.dom
      ∧ calculatePayroll s.calculatePayroll.currentEmployeeData s.calculatePayroll.document.dom
          = calculatePayroll s.currentEmployeeData s.document.dom
      ∧ s.calculatePayroll.calculatePayroll = s.calculatePayroll
      ∧ (s.calculatePayroll.document.elements "preview-gross-pay"
            = Content.shown (calculatePayroll s.currentEmployeeData s.document.dom).grossPay
          ∧ s.calculatePayroll.document.elements "preview-paye"
            = Content.shown (calculatePayroll s.currentEmployeeData s.document.dom).paye
          ∧ s.calculatePayroll.document.elements "preview-uif"
            = Content.shown (calculatePayroll s.currentEmployeeData s.document.dom).uif
          ∧ s.calculatePayroll.document.elements "preview-sdl"
            = Content.shown (calculatePayroll s.currentEmployeeData s.document.dom).sdl
          ∧ s.calculatePayroll.document.elements "preview-recurring-total"
            = Content.shown (calculatePayroll s.currentEmployeeData s.document.dom).recurringTotal
          ∧ s.calculatePayroll.document.elements "preview-total-deductions"
            = Content.shown (calculatePayroll s.currentEmployeeData s.document.dom).totalDeductions
          ∧ s.calculatePayroll.document.elements "preview-net-pay"
            = Content.shown (calculatePayroll s.currentEmployeeData s.document.dom).netPay)
      ∧ s.calculatePayroll.document.rows
          = s.document.rows.map (fun r =>
              r.showAmount
                (rowAmount (calculatePayroll s.currentEmployeeData s.document.dom).grossPay r.read))
      ∧ (∀ (r : DocRow) (amount : JSNum), (r.parts ".deduction-amount").isSome = true →
          (r.showAmount amount).parts ".deduction-amount" = some (Content.shown amount)) := by
  have hdom : s.calculatePayroll.document.dom = s.document.dom := dom_write _ _ _
  refine ⟨rfl, ?_, ?_, hdom, ?_, ?_, elements_write _ _ _, rfl, ?_⟩
  · intro id hid
    apply setContents_of_not_mem
    rw [previewWrites_keys]
    simp only [readIds, List.mem_cons, List.mem_singleton, List.not_mem_nil, or_false] at hid
    rcases hid with rfl | rfl | rfl | rfl | rfl | rfl | rfl <;> decide
  · have := congrArg Dom.rows hdom
    exact this
  · rw [hdom]
    rfl
  · have hdoc : s.calculatePayroll.document.calculatePayroll s.currentEmployeeData
        = s.calculatePayroll.document := by
      show (s.calculatePayroll.document).write
          (calculatePayroll s.currentEmployeeData s.calculatePayroll.document.dom)
          (readInput s.calculatePayroll.document.dom.allowances)
        = s.calculatePayroll.document
      rw [hdom]
      exact write_write _ _ _
    show ({ currentEmployeeData := s.currentEmployeeData,
            document := s.calculatePayroll.document.calculatePayroll s.currentEmployeeData }
          : Session) = s.calculatePayroll
    rw [hdoc]
    rfl
  · intro r amount hr
    unfold DocRow.showAmount
    cases h : r.parts ".deduction-amount" with
    | none => simp [h] at hr
    | some c => simp

/-- Claim C11 at a loaded hourly employee paid 100 with 200 hours and a 7.5 percent
row: the run shows the gross pay 20000 and the row amount 1500, the value
input of the row still holds 7.5, and a second run changes nothing. -/
theorem calculatePayroll_rerun_witness :
    percentageSession.calculatePayroll.document.elements "preview-gross-pay"
        = Content.shown (num 20000)
      ∧ percentageSession.calculatePayroll.document.rows.map
          (fun r => r.parts ".deduction-amount") = [some (Content.shown (num 1500))]
      ∧ percentageSession.calculatePayroll.document.rows.map
          (fun r => r.parts ".deduction-value")
          = [some (Content.value (NumText.text (num 7.5)))]
      ∧ percentageSession.calculatePayroll.calculatePayroll
          = percentageSession.calculatePayroll := by
  have hd : percentageSession.document.dom = percentageDom := by
    simp [Document.dom, percentageSession, percentageDocument, percentageDom, emptyDom,
      Content.inputValue, DocRow.read, percentageDocRow, percentageRow, Content.selectValue]
  have hg : (calculatePayroll percentageSession.currentEmployeeData
      percentageSession.document.dom).grossPay = num 20000 := by
    rw [hd]
    simp [percentageSession, calculatePayroll, hourlyHundred, percentageDom, emptyDom,
      EmployeeData.initial, readInput_empty, readInput_num, toNumber, num_add, num_mul]
    norm_num
  have hT := calculatePayroll_rerun percentageSession
  refine ⟨?_, ?_, ?_, hT.2.2.2.2.2.1⟩
  · rw [hT.2.2.2.2.2.2.1.1, hg]
  · rw [hT.2.2.2.2.2.2.2.1, hg]
    simp [percentageSession, percentageDocument, DocRow.showAmount, percentageDocRow,
      DocRow.read, rowAmount, rowTypeValue, Content.selectValue, Content.inputValue, parseFloat,
      toLowerCase, num_div, num_mul]
    norm_num
  · rw [hT.2.2.2.2.2.2.2.1]
    simp [percentageSession, percentageDocument, DocRow.showAmount, percentageDocRow]

end Payroll
